import Mathlib

/-
  Verification development for the ShadowHorn correlation engine
  (backend/openai_correlation.py and backend/comprehensive_report.py).

  The Python code is shallowly embedded: JSON-serializable Python values
  become the inductive type `Json` below; dicts are insertion-ordered
  association lists (Python 3.7+ dict semantics); pure functions become
  Lean functions.  Machine-level details that no checked claim depends on
  (Python repr of nested containers inside f-strings, thousands-separator
  number formatting, hash iteration order of `set`) are modelled by
  simple deterministic stand-ins, each marked by a comment at its
  definition.
-/

/-- JSON-serializable Python value: None, bool, number (modelled as an
integer; no checked claim involves float-specific behaviour), str, list,
dict (insertion-ordered association list with string keys). -/
inductive Json where
  | null : Json
  | bool (b : Bool) : Json
  | num (n : Int) : Json
  | str (s : String) : Json
  | arr (elems : List Json) : Json
  | obj (entries : List (String × Json)) : Json
  deriving Repr

mutual

/-- Structural (Python `==`) equality test for `Json`. -/
def Json.beq : Json → Json → Bool
  | .null, .null => true
  | .bool a, .bool b => a == b
  | .num a, .num b => a == b
  | .str a, .str b => a == b
  | .arr a, .arr b => Json.beqList a b
  | .obj a, .obj b => Json.beqObj a b
  | _, _ => false

/-- Elementwise equality of JSON lists. -/
def Json.beqList : List Json → List Json → Bool
  | [], [] => true
  | x :: xs, y :: ys => Json.beq x y && Json.beqList xs ys
  | _, _ => false

/-- Elementwise equality of JSON association lists. -/
def Json.beqObj : List (String × Json) → List (String × Json) → Bool
  | [], [] => true
  | (k1, v1) :: xs, (k2, v2) :: ys => k1 == k2 && Json.beq v1 v2 && Json.beqObj xs ys
  | _, _ => false

end


/-- Python truthiness of a JSON value. -/
def Json.truthy : Json → Bool
  | .null => false
  | .bool b => b
  | .num n => n != 0
  | .str s => !s.isEmpty
  | .arr l => !l.isEmpty
  | .obj l => !l.isEmpty

/-- Truthiness of an optional value (Python `None` is falsy). -/
def truthyOpt : Option Json → Bool
  | some v => v.truthy
  | none => false

/-- Raw association-list lookup: the stored value of a dict key, `none`
when the key is absent (Python `k in d` / `d.get(k, default)` need the
raw result). -/
def jfind : List (String × Json) → String → Option Json
  | [], _ => none
  | (k, v) :: rest, key => if k = key then some v else jfind rest key

/-- Collapse of a stored value to what Python `d.get(k)` reports: a
stored `None` reads back as `None`, i.e. as an absent key. -/
def jgetV : Json → Option Json
  | .null => none
  | v => some v

/-- Python `d.get(k)`: `None` both when the key is absent and when the
stored value is `None`. -/
def jget (kvs : List (String × Json)) (key : String) : Option Json :=
  match jfind kvs key with
  | some v => jgetV v
  | none => none

/-- Python `d.get(k)` on a value that the code assumes to be a dict.  On a
non-dict Python raises `AttributeError`; the claims only exercise dict
inputs and the total model answers `none` there. -/
def jgetD : Json → String → Option Json
  | .obj kvs, key => jget kvs key
  | _, _ => none

/-- Python `d[k] = v` on an insertion-ordered dict: replace in place if
the key exists, else append. -/
def jset : List (String × Json) → String → Json → List (String × Json)
  | [], key, v => [(key, v)]
  | (k, w) :: rest, key, v =>
      if k = key then (key, v) :: rest else (k, w) :: jset rest key v

/-- Python `d.setdefault(k, v)`. -/
def jsetdefault (kvs : List (String × Json)) (key : String) (v : Json) :
    List (String × Json) :=
  if (jfind kvs key).isSome then kvs else kvs ++ [(key, v)]

/-- Python `k in d` for dicts. -/
def jhasKey (kvs : List (String × Json)) (key : String) : Bool :=
  (jfind kvs key).isSome

/-- Python `str()` of a JSON value.  The rendering of nested containers
(Python uses `repr` with quotes) is abstracted to fixed markers: no
checked claim compares the rendering of a container. -/
def pyStr : Json → String
  | .null => "None"
  | .bool true => "True"
  | .bool false => "False"
  | .num n => toString n
  | .str s => s
  | .arr _ => "[...]"
  | .obj _ => "\x7b...\x7d"

/-- ASCII lower-casing of a character (Python `str.lower`; the data the
claims exercise is ASCII). -/
def chLower (c : Char) : Char :=
  if 65 ≤ c.toNat ∧ c.toNat ≤ 90 then Char.ofNat (c.toNat + 32) else c

/-- ASCII upper-casing of a character (Python `str.upper`). -/
def chUpper (c : Char) : Char :=
  if 97 ≤ c.toNat ∧ c.toNat ≤ 122 then Char.ofNat (c.toNat - 32) else c

/-- Python `s.lower()`. -/
def pyLower (s : String) : String := String.mk (s.data.map chLower)

/-- Python `s.upper()`. -/
def pyUpper (s : String) : String := String.mk (s.data.map chUpper)

/-- Python `s.capitalize()`: first character upper-cased, the rest
lower-cased. -/
def pyCapitalize (s : String) : String :=
  match s.data with
  | [] => ""
  | c :: rest => String.mk (chUpper c :: rest.map chLower)

/-- Python slice `s[:n]`. -/
def pyTake (s : String) (n : Nat) : String := String.mk (s.data.take n)

/-- Prefix test on character lists. -/
def chlStartsWith : List Char → List Char → Bool
  | [], _ => true
  | _ :: _, [] => false
  | a :: as, b :: bs => a == b && chlStartsWith as bs

/-- Substring occurrence on character lists. -/
def chlContains (needle : List Char) : List Char → Bool
  | [] => chlStartsWith needle []
  | c :: cs => chlStartsWith needle (c :: cs) || chlContains needle cs

/-- Python `needle in hay` for strings. -/
def pyIn (needle hay : String) : Bool := chlContains needle.data hay.data

/-- Python `s.startswith(p)`. -/
def pyStartsWith (s p : String) : Bool := chlStartsWith p.data s.data

/-- Code-point comparison of character lists (Python string `<`). -/
def chlLt : List Char → List Char → Bool
  | [], [] => false
  | [], _ :: _ => true
  | _ :: _, [] => false
  | a :: as, b :: bs => a.toNat < b.toNat || (a == b && chlLt as bs)

/-- Python string `<`. -/
def strLt (a b : String) : Bool := chlLt a.data b.data

/-- Stable insertion into an ascending list (helper for `pySorted`). -/
def insortStr (s : String) : List String → List String
  | [] => [s]
  | t :: ts => if strLt t s then t :: insortStr s ts else s :: t :: ts

/-- Python `sorted` on strings: stable, ascending by code points. -/
def pySorted (l : List String) : List String :=
  l.reverse.foldl (fun acc s => insortStr s acc) []

/-- Python `set.add` modelled on an insertion-ordered duplicate-free
list; `set` iteration order (hash-based in CPython) is modelled as
insertion order — no checked claim depends on it. -/
def setAdd (l : List Json) (j : Json) : List Json :=
  if l.any (fun x => Json.beq x j) then l else l ++ [j]

/-- Python `f"{n:,}"`-style rendering; the thousands separators are
abstracted away (no checked claim inspects these interest strings). -/
def pyFmtComma (j : Json) : String := pyStr j

-- ==========================
-- Schema coercion & classification helpers
-- (openai_correlation.py lines 1630-1762)
-- ==========================

/-- CANONICAL_KEYS of the correlation schema (dict of defaults in the
source; only the key list and the `compromised` default matter, and the
per-key defaults are baked into the branches of the coercion below just
as the source's type-class branches are). -/
def CANONICAL_KEYS : List String :=
  ["name", "profile_type", "about", "usernames", "bio", "emails",
   "primary_location", "posts", "repositories", "activity_patterns",
   "possible_interests", "relationship_graph", "behavioral_anomalies",
   "key_timelines", "links", "compromised", "summary", "llm_analysis"]

/-- Source `_normalize_list`: a list passes through, anything else
becomes the empty list (argument is the `src.get(key)` result). -/
def normalize_list : Option Json → List Json
  | some (.arr l) => l
  | _ => []

/-- Scalar-field branch of `_coerce_profile_schema`: `None` stays null,
anything else is `str()`-converted. -/
def coerce_scalar : Option Json → Json
  | none => .null
  | some v => .str (pyStr v)

/-- Dict-field branch (`usernames`, `links`): `val if isinstance(val,
dict) else {}`. -/
def coerce_dict : Option Json → List (String × Json)
  | some (.obj l) => l
  | _ => []

/-- Permissive `compromised` coercion: bools pass through; strings match
a fixed truthy set after strip+lower; numerics use `bool(val)`; anything
else (including absent/null) falls back to `bool(default) = False`. -/
def coerce_compromised : Option Json → Bool
  | some (.bool b) => b
  | some (.str s) =>
      let l := pyLower s.trim
      l = "yes" || l = "true" || l = "1" || l = "compromised"
  | some (.num n) => n != 0
  | _ => false

/-- Normalisation of one `usernames` entry: dicts extract `handle`
(falling back to `username` under Python `or`) and pass `url`/`bio`
through; `None` keeps a null handle; any other value is stringified into
the handle slot. -/
def normalize_username_entry : Json → Json
  | .obj d =>
      let handle : Option Json :=
        match jget d "handle" with
        | some v => if v.truthy then some v else jget d "username"
        | none => jget d "username"
      .obj [("handle", handle.getD .null),
            ("url", (jget d "url").getD .null),
            ("bio", (jget d "bio").getD .null)]
  | .null => .obj [("handle", .null), ("url", .null), ("bio", .null)]
  | v => .obj [("handle", .str (pyStr v)), ("url", .null), ("bio", .null)]

/-- Unwrapping step of `_coerce_profile_schema`: a dict-valued `profile`
or `result` wrapper is unwrapped one level; non-dict inputs yield an
empty source dict. -/
def srcOf : Json → List (String × Json)
  | .obj kvs =>
      match jfind kvs "profile" with
      | some (.obj p) => p
      | _ =>
          match jfind kvs "result" with
          | some (.obj p) => p
          | _ => kvs
  | _ => []

/-- Per-key coercion pass of `_coerce_profile_schema` over
CANONICAL_KEYS, including the username-entry normalisation. -/
def coerceFields (src : List (String × Json)) : List (String × Json) :=
  [("name", coerce_scalar (jget src "name")),
   ("profile_type", coerce_scalar (jget src "profile_type")),
   ("about", coerce_scalar (jget src "about")),
   ("usernames", .obj ((coerce_dict (jget src "usernames")).map
       (fun kv => (kv.1, normalize_username_entry kv.2)))),
   ("bio", coerce_scalar (jget src "bio")),
   ("emails", .arr ((normalize_list (jget src "emails")).map
       (fun x => .str (pyStr x)))),
   ("primary_location", coerce_scalar (jget src "primary_location")),
   ("posts", .arr (normalize_list (jget src "posts"))),
   ("repositories", .arr (normalize_list (jget src "repositories"))),
   ("activity_patterns", coerce_scalar (jget src "activity_patterns")),
   ("possible_interests", .arr ((normalize_list (jget src "possible_interests")).map
       (fun x => .str (pyStr x)))),
   ("relationship_graph", .arr (normalize_list (jget src "relationship_graph"))),
   ("behavioral_anomalies", .arr ((normalize_list (jget src "behavioral_anomalies")).map
       (fun x => .str (pyStr x)))),
   ("key_timelines", .arr ((normalize_list (jget src "key_timelines")).map
       (fun x => .str (pyStr x)))),
   ("links", .obj (coerce_dict (jget src "links"))),
   ("compromised", .bool (coerce_compromised (jget src "compromised"))),
   ("summary", coerce_scalar (jget src "summary")),
   ("llm_analysis", coerce_scalar (jget src "llm_analysis"))]

/-- Source `_ensure_profile_classification`: derive `profile_type` and
`about` when they are falsy.  Both call sites pass dicts; the non-dict
case (where Python would raise) is the identity. -/
def ensure_profile_classification : Json → Json
  | .obj kvs =>
      let profile_type := jget kvs "profile_type"
      let about := jget kvs "about"
      let platforms : List String :=
        match jget kvs "usernames" with
        | some (.obj l) => pySorted (l.map (·.1))
        | _ => []
      let reposV : Json := (jget kvs "repositories").getD .null
      let ptypeJ : Json :=
        if truthyOpt profile_type then profile_type.getD .null
        else .str (
          if platforms.contains "github" && reposV.truthy then "developer"
          else if platforms.contains "linkedin" then "professional"
          else if platforms.contains "twitter" || platforms.contains "reddit" then "individual"
          else if !platforms.isEmpty then "online_profile"
          else "unknown")
      let aboutJ : Json :=
        if truthyOpt about then about.getD .null
        else
          let name : String :=
            match jget kvs "name" with
            | some v => if v.truthy then pyStr v else "This subject"
            | none => "This subject"
          let footprint : String :=
            if platforms.isEmpty then "limited visible platforms"
            else ", ".intercalate (platforms.map pyCapitalize)
          let repoCount : Nat :=
            match reposV with
            | .arr l => l.length
            | _ => 0
          let repoPhrase : String :=
            if repoCount != 0 then "with public GitHub repositories"
            else "with minimal code exposure"
          .str ((name ++ " appears to be a " ++ pyStr ptypeJ ++ " active on "
                 ++ footprint ++ " " ++ repoPhrase ++ ".").trim)
      .obj (jset (jset kvs "profile_type" ptypeJ) "about" aboutJ)
  | j => j

/-- Source `_coerce_profile_schema`: unwrap, coerce every canonical key,
normalise username entries, then classify. -/
def coerce_profile_schema (raw : Json) : Json :=
  ensure_profile_classification (.obj (coerceFields (srcOf raw)))

-- ==========================
-- Risk & report derivation (comprehensive_report.py lines 532-596)
-- ==========================

/-- Source `extract_usernames`: collect handles out of the `usernames`
map; dict entries need a present `handle` key (the raw stored value is
appended, null included), plain strings are taken as-is. -/
def extract_usernames (profile : Json) : List Json :=
  match profile with
  | .obj kvs =>
      match jfind kvs "usernames" with
      | some (.obj l) =>
          l.filterMap (fun kv =>
            match kv.2 with
            | .obj d => jfind d "handle"
            | .str s => some (.str s)
            | _ => none)
      | _ => []
  | _ => []

/-- Result row of `compute_counts`. -/
structure Counts where
  usernames : Nat
  repos : Nat
  total_stars : Int
  total_forks : Int
  connections : Nat
  deriving Repr, DecidableEq

/-- Python `sum(r.get(field, 0) for r in repos_list if isinstance(r,
dict))`: missing keys default to 0, numbers (and bools, which are ints
in Python) add up, and any other stored value — including an explicit
`None` — raises a TypeError, modelled as an error result. -/
def pySumField (repos : List Json) (field : String) : Except String Int :=
  repos.foldl
    (fun acc r =>
      match acc with
      | .error e => .error e
      | .ok n =>
          match r with
          | .obj d =>
              match jfind d field with
              | none => .ok n
              | some (.num m) => .ok (n + m)
              | some (.bool b) => .ok (n + if b then 1 else 0)
              | some _ => .error ("TypeError: unsupported operand type for +: " ++ field)
          | _ => .ok n)
    (.ok 0)

/-- Source `compute_counts`: statistics over a stored profile.  The
star/fork summations can raise in Python (see `pySumField`), so the
result is fallible. -/
def compute_counts (profile : Json) : Except String Counts := do
  let reposRaw : Json :=
    match profile with
    | .obj kvs => (jfind kvs "repositories").getD (.arr [])
    | _ => .arr []
  let repos_list : List Json :=
    match reposRaw with
    | .arr l => l
    | _ => []
  let total_stars ← pySumField repos_list "stars"
  let total_forks ← pySumField repos_list "forks"
  let connections : Nat :=
    match profile with
    | .obj kvs =>
        match jfind kvs "relationship_graph" with
        | some (.arr l) => l.length
        | _ => 0
    | _ => 0
  pure { usernames := (extract_usernames profile).length,
         repos := repos_list.length,
         total_stars := total_stars,
         total_forks := total_forks,
         connections := connections }

/-- Result row of `derive_risk`. -/
structure Risk where
  level : String
  reason : String
  deriving Repr, DecidableEq

/-- Source `derive_risk`: deterministic point scoring over the profile
and precomputed counts, then threshold bucketing. -/
def derive_risk (profile : Json) (counts : Counts) : Risk :=
  let c1 := truthyOpt (jgetD profile "compromised")
  let c2 := (extract_usernames profile).length ≥ 3
  let c3 := counts.repos ≥ 10
  let c4 := counts.total_stars ≥ 50
  let score : Nat :=
    (if c1 then 50 else 0) + (if c2 then 15 else 0) +
    (if c3 then 10 else 0) + (if c4 then 5 else 0)
  let reasons : List String :=
    (if c1 then ["Compromise detected"] else []) ++
    (if c2 then ["Multiple identifiers"] else []) ++
    (if c3 then ["Significant code presence"] else []) ++
    (if c4 then ["Popular repositories"] else [])
  let level : String :=
    if score ≥ 60 then "critical"
    else if score ≥ 40 then "high"
    else if score ≥ 20 then "medium"
    else "low"
  { level := level,
    reason := if reasons.isEmpty then "Minimal risk indicators"
              else " | ".intercalate reasons }

-- ==========================
-- Cleaned-data correlation (_correlate_cleaned_data, lines 566-998)
-- ==========================

/-- Python `x or y` on JSON values. -/
def pyOrJ (a b : Json) : Json := if a.truthy then a else b

/-- Python `d.get(k) or e.get(j)`-style fallback on optional values. -/
def pyOrOpt (a b : Option Json) : Option Json := if truthyOpt a then a else b

/-- Truthy-guarded access: `some v` exactly when `data.get(k)` is truthy
(the shape of every `if data.get(k): … data[k] …` site). -/
def getTruthy (data : Json) (k : String) : Option Json :=
  match jgetD data k with
  | some v => if v.truthy then some v else none
  | none => none

/-- Iteration source for `for x in data.get(k) or []`: a stored truthy
list yields its elements, anything else yields nothing (Python would
iterate other truthy iterables; the collectors store lists here). -/
def getList (data : Json) (k : String) : List Json :=
  match jgetD data k with
  | some (.arr l) => l
  | _ => []

/-- Elements of an optional value treated as a list (`x or []` loops). -/
def asList : Option Json → List Json
  | some (.arr l) => l
  | _ => []

/-- String content of `(data.get(k) or "")` ahead of slicing; a truthy
non-string would make Python raise at the slice, modelled by its
rendering (unexercised by the claims). -/
def getStrOrEmpty (data : Json) (k : String) : String :=
  match getTruthy data k with
  | some (.str s) => s
  | some v => pyStr v
  | none => ""

/-- Python `d.get(k, default)` with the raw stored value (used by the
badge-count and follower-count sites that pass an explicit default). -/
def rawGetDefault (j : Json) (k : String) (d : Json) : Json :=
  match j with
  | .obj kvs => (jfind kvs k).getD d
  | _ => d

/-- Mutable aggregation state shared by the per-platform branches of
`_correlate_cleaned_data` (the sets/lists/dicts declared at lines
592-602 plus the two `base_profile` fields mutated inside the loop). -/
structure CDState where
  usernames : List (String × Json) := []
  relationship : List Json := []
  emails : List Json := []
  interests : List Json := []
  links : List (String × Json) := []
  posts : List Json := []
  repos : List Json := []
  keyEvents : List (Json × String) := []
  locations : List Json := []
  names : List Json := []
  bios : List Json := []
  compromised : Bool := false
  notes : List String := []
  deriving Repr

/-- GITHUB branch (lines 612-667). -/
def cd_github (st0 : CDState) (data : Json) : CDState :=
  let st := match getTruthy data "name" with
    | some v => { st0 with names := st0.names ++ [v] }
    | none => st0
  let st := match getTruthy data "username" with
    | some u =>
        let url := pyOrJ ((jgetD data "profile_url").getD .null)
                         (.str ("https://github.com/" ++ pyStr u))
        { st with
          usernames := jset st.usernames "github" (.obj [("handle", u), ("url", url)]),
          links := jset st.links "github" url }
    | none => st
  let st := match getTruthy data "bio" with
    | some v => { st with bios := st.bios ++ [v] }
    | none => st
  let st := match getTruthy data "email" with
    | some v => { st with emails := setAdd st.emails v }
    | none => st
  let st := match getTruthy data "location" with
    | some v => { st with locations := st.locations ++ [v] }
    | none => st
  let st := match getTruthy data "website" with
    | some v => { st with links := jsetdefault st.links "website" v }
    | none => st
  let st := match getTruthy data "company" with
    | some v => { st with interests := setAdd st.interests (.str ("Works at " ++ pyStr v)) }
    | none => st
  let st := match getTruthy data "created_at" with
    | some v => { st with keyEvents := st.keyEvents ++ [(v, "GitHub account created")] }
    | none => st
  let st := (getList data "repositories").foldl
    (fun st repo =>
      { st with repos := st.repos ++ [.obj [
          ("name", (jgetD repo "name").getD .null),
          ("url", (jgetD repo "url").getD .null),
          ("description", (jgetD repo "description").getD .null),
          ("stars", (jgetD repo "stars").getD .null),
          ("forks", (jgetD repo "forks").getD .null),
          ("language", (jgetD repo "language").getD .null)]] }) st
  let st := (getList data "top_languages").foldl
    (fun st lang =>
      { st with interests := setAdd st.interests (.str ("Programming: " ++ pyStr lang)) }) st
  let st := (getList data "organizations").foldl
    (fun st org =>
      { st with interests := setAdd st.interests (.str ("GitHub Org: " ++ pyStr org)) }) st
  let st := (getList data "followers_sample").foldl
    (fun st f =>
      { st with relationship := st.relationship ++ [.obj [
          ("username", (jgetD f "username").getD .null),
          ("platform", .str "GitHub"),
          ("type", .str "follower"),
          ("url", (jgetD f "url").getD .null)]] }) st
  let st := (getList data "following_sample").foldl
    (fun st f =>
      { st with relationship := st.relationship ++ [.obj [
          ("username", (jgetD f "username").getD .null),
          ("platform", .str "GitHub"),
          ("type", .str "following"),
          ("url", (jgetD f "url").getD .null)]] }) st
  st

/-- TWITTER branch (lines 670-705). -/
def cd_twitter (st0 : CDState) (data : Json) : CDState :=
  let st := match getTruthy data "name" with
    | some v => { st0 with names := st0.names ++ [v] }
    | none => st0
  let st := match getTruthy data "username" with
    | some u =>
        let url : Json := .str ("https://twitter.com/" ++ pyStr u)
        { st with
          usernames := jset st.usernames "twitter" (.obj [("handle", u), ("url", url)]),
          links := jset st.links "twitter" url }
    | none => st
  let st := match getTruthy data "bio" with
    | some v => { st with bios := st.bios ++ [v] }
    | none => st
  let st := match getTruthy data "location" with
    | some v => { st with locations := st.locations ++ [v] }
    | none => st
  let st := match getTruthy data "website" with
    | some v => { st with links := jsetdefault st.links "website" v }
    | none => st
  let st := match getTruthy data "created_at" with
    | some v => { st with keyEvents := st.keyEvents ++ [(v, "Twitter account created")] }
    | none => st
  let st := match getTruthy data "verified" with
    | some _ => { st with interests := setAdd st.interests (.str "Verified Twitter account") }
    | none => st
  let st := match getTruthy data "followers_count" with
    | some v =>
        let tag : Json := .str ("Twitter: " ++ pyFmtComma v ++ " followers")
        { st with interests := setAdd st.interests tag }
    | none => st
  let st := (getList data "recent_tweets").foldl
    (fun st tweet =>
      { st with posts := st.posts ++ [.obj [
          ("platform", .str "Twitter"),
          ("title", .str (pyTake (getStrOrEmpty tweet "text") 120)),
          ("url", (jgetD tweet "url").getD .null),
          ("date", (jgetD tweet "date").getD .null),
          ("metrics", .obj [("likes", (jgetD tweet "likes").getD .null),
                            ("retweets", (jgetD tweet "retweets").getD .null)])]] }) st
  let st := (getList data "hashtags_used").foldl
    (fun st tag =>
      { st with interests := setAdd st.interests (.str ("#" ++ pyStr tag)) }) st
  st

/-- REDDIT branch (lines 708-742). -/
def cd_reddit (st0 : CDState) (data : Json) : CDState :=
  let st := match getTruthy data "username" with
    | some u =>
        let url : Json := .str ("https://reddit.com/user/" ++ pyStr u)
        { st0 with
          usernames := jset st0.usernames "reddit" (.obj [("handle", u), ("url", url)]),
          links := jset st0.links "reddit" url }
    | none => st0
  let st := match getTruthy data "created_at" with
    | some v => { st with keyEvents := st.keyEvents ++ [(v, "Reddit account created")] }
    | none => st
  let karma : Int :=
    (match getTruthy data "karma_post" with
     | some (.num n) => n
     | _ => 0) +
    (match getTruthy data "karma_comment" with
     | some (.num n) => n
     | _ => 0)
  let st := if karma ≠ 0 then
      let tag : Json := .str ("Reddit karma: " ++ pyFmtComma (.num karma))
      { st with interests := setAdd st.interests tag }
    else st
  let st := (getList data "subreddits_active").foldl
    (fun st sub =>
      { st with interests := setAdd st.interests (.str ("r/" ++ pyStr sub)) }) st
  let st := (getList data "recent_posts").foldl
    (fun st post =>
      { st with posts := st.posts ++ [.obj [
          ("platform", .str "Reddit"),
          ("title", (jgetD post "title").getD .null),
          ("url", (jgetD post "url").getD .null),
          ("date", (jgetD post "date").getD .null),
          ("metrics", .obj [("score", (jgetD post "score").getD .null),
                            ("subreddit", (jgetD post "subreddit").getD .null)])]] }) st
  let st := (getList data "recent_comments").foldl
    (fun st comment =>
      { st with posts := st.posts ++ [.obj [
          ("platform", .str "Reddit"),
          ("title", .str (pyTake (getStrOrEmpty comment "text") 100)),
          ("date", (jgetD comment "date").getD .null),
          ("metrics", .obj [("score", (jgetD comment "score").getD .null),
                            ("subreddit", (jgetD comment "subreddit").getD .null)])]] }) st
  st

/-- SNAPCHAT branch (lines 745-807). -/
def cd_snapchat (st0 : CDState) (data : Json) : CDState :=
  let st := match getTruthy data "display_name" with
    | some v => { st0 with names := st0.names ++ [v] }
    | none => st0
  let st := match getTruthy data "username" with
    | some u =>
        let url : Json := .str ("https://www.snapchat.com/add/" ++ pyStr u)
        { st with
          usernames := jset st.usernames "snapchat" (.obj [("handle", u), ("url", url)]),
          links := jset st.links "snapchat" url }
    | none => st
  let st := match getTruthy data "bio" with
    | some v => { st with bios := st.bios ++ [v] }
    | none => st
  let st := match getTruthy data "location" with
    | some v => { st with locations := st.locations ++ [v] }
    | none => st
  let st := match getTruthy data "verified" with
    | some _ => { st with interests := setAdd st.interests (.str "Verified Snapchat account") }
    | none => st
  let st := match getTruthy data "follower_count" with
    | some v =>
        let tag : Json := .str ("Snapchat: " ++ pyFmtComma v ++ " followers")
        { st with interests := setAdd st.interests tag }
    | none => st
  let st := (getList data "interests").foldl
    (fun st interest => { st with interests := setAdd st.interests interest }) st
  let st := (getList data "external_sites").foldl
    (fun st site =>
      if site.truthy ∧ ¬ jhasKey st.links "website" then
        let v : Json :=
          match site with
          | .str s => if pyStartsWith s "http" then site else .str ("https://" ++ s)
          | w => .str ("https://" ++ pyStr w)
        { st with links := jset st.links "website" v }
      else st) st
  let st := (getList data "spotlight_videos").foldl
    (fun st video =>
      { st with posts := st.posts ++ [.obj [
          ("platform", .str "Snapchat"),
          ("title", pyOrJ ((jgetD video "title").getD .null) (.str "Spotlight Video")),
          ("url", (jgetD video "url").getD .null),
          ("metrics", .obj [("views", (jgetD video "views").getD .null),
                            ("likes", (jgetD video "likes").getD .null)])]] }) st
  let st := (getList data "highlights").foldl
    (fun st highlight =>
      { st with posts := st.posts ++ [.obj [
          ("platform", .str "Snapchat"),
          ("title", pyOrJ ((jgetD highlight "title").getD .null)
                      (pyOrJ ((jgetD highlight "name").getD .null) (.str "Story Highlight"))),
          ("url", (jgetD highlight "url").getD .null),
          ("date", pyOrJ ((jgetD highlight "date").getD .null)
                      ((jgetD highlight "created_at").getD .null))]] }) st
  let st := (getList data "stories").foldl
    (fun st story =>
      { st with posts := st.posts ++ [.obj [
          ("platform", .str "Snapchat"),
          ("title", pyOrJ ((jgetD story "title").getD .null) (.str "Story")),
          ("url", (jgetD story "url").getD .null),
          ("date", pyOrJ ((jgetD story "date").getD .null)
                      ((jgetD story "posted_at").getD .null)),
          ("metrics", .obj [("views", (jgetD story "views").getD .null)])]] }) st
  let st := (getList data "public_stories").foldl
    (fun st story =>
      { st with posts := st.posts ++ [.obj [
          ("platform", .str "Snapchat"),
          ("title", pyOrJ ((jgetD story "title").getD .null) (.str "Public Story")),
          ("url", (jgetD story "url").getD .null),
          ("date", (jgetD story "date").getD .null)]] }) st
  st

/-- STACKOVERFLOW branch (lines 810-837). -/
def cd_stackoverflow (st0 : CDState) (data : Json) : CDState :=
  let st := match getTruthy data "username" with
    | some u =>
        let url := pyOrJ ((jgetD data "profile_url").getD .null)
          (.str ("https://stackoverflow.com/users/" ++ pyStr ((jgetD data "user_id").getD .null)))
        let st1 := { st0 with
          usernames := jset st0.usernames "stackoverflow" (.obj [("handle", u), ("url", url)]),
          links := jset st0.links "stackoverflow" url }
        if st1.names.isEmpty then { st1 with names := st1.names ++ [u] } else st1
    | none => st0
  let st := match getTruthy data "location" with
    | some v => { st with locations := st.locations ++ [v] }
    | none => st
  let st := match getTruthy data "website" with
    | some v => { st with links := jsetdefault st.links "website" v }
    | none => st
  let st := match getTruthy data "created_at" with
    | some v => { st with keyEvents := st.keyEvents ++ [(v, "StackOverflow account created")] }
    | none => st
  let st := match getTruthy data "reputation" with
    | some v =>
        let tag : Json := .str ("StackOverflow: " ++ pyFmtComma v ++ " reputation")
        { st with interests := setAdd st.interests tag }
    | none => st
  let badges := pyOrJ ((jgetD data "badges").getD .null) (.obj [])
  let st := if badges.truthy then
      let tag : Json := .str ("SO Badges: " ++ pyStr (rawGetDefault badges "gold" (.num 0)) ++
        "🥇 " ++ pyStr (rawGetDefault badges "silver" (.num 0)) ++
        "🥈 " ++ pyStr (rawGetDefault badges "bronze" (.num 0)) ++ "🥉")
      { st with interests := setAdd st.interests tag }
    else st
  let st := (getList data "top_tags").foldl
    (fun st tag =>
      let tag_name : Json :=
        match tag with
        | .obj d => (jget d "name").getD .null
        | t => t
      if tag_name.truthy then
        { st with interests := setAdd st.interests (.str ("Tech: " ++ pyStr tag_name)) }
      else st) st
  st

/-- LINKEDIN branch (lines 840-872). -/
def cd_linkedin (st0 : CDState) (data : Json) : CDState :=
  let st := match getTruthy data "name" with
    | some v => { st0 with names := st0.names ++ [v] }
    | none => st0
  let st := match getTruthy data "username" with
    | some u =>
        let url : Json := .str ("https://linkedin.com/in/" ++ pyStr u)
        { st with
          usernames := jset st.usernames "linkedin" (.obj [("handle", u), ("url", url)]),
          links := jset st.links "linkedin" url }
    | none => st
  let st := match getTruthy data "headline" with
    | some v => { st with bios := st.bios ++ [v] }
    | none => st
  let st := match getTruthy data "about" with
    | some v => { st with bios := st.bios ++ [v] }
    | none => st
  let st := match getTruthy data "location" with
    | some v => { st with locations := st.locations ++ [v] }
    | none => st
  let st :=
    match getTruthy data "current_company", getTruthy data "current_position" with
    | some comp, some pos =>
        let tag : Json := .str (pyStr pos ++ " at " ++ pyStr comp)
        { st with interests := setAdd st.interests tag }
    | some comp, none =>
        { st with interests := setAdd st.interests (.str ("Works at " ++ pyStr comp)) }
    | none, _ => st
  let st := (getList data "skills").foldl
    (fun st skill =>
      { st with interests := setAdd st.interests (.str ("Skill: " ++ pyStr skill)) }) st
  let st := (getList data "experience").foldl
    (fun st exp =>
      match getTruthy exp "title", getTruthy exp "company" with
      | some t, some c =>
          let date := pyOrJ ((jgetD exp "duration").getD .null) (.str "Past")
          { st with keyEvents := st.keyEvents ++ [(date, pyStr t ++ " at " ++ pyStr c)] }
      | _, _ => st) st
  let st := (getList data "education").foldl
    (fun st edu =>
      match getTruthy edu "school" with
      | some school =>
          { st with interests := setAdd st.interests (.str ("Education: " ++ pyStr school)) }
      | none => st) st
  st

/-- Lower-cased platform label `profile.get("platform", "").lower()`
(a stored non-string would make Python raise at `.lower()`; modelled as
the empty label, unexercised by the claims). -/
def platLabel (p : Json) : String :=
  match p with
  | .obj kvs =>
      match jfind kvs "platform" with
      | some (.str s) => pyLower s
      | _ => ""
  | _ => ""

/-- PROFILE OSINT branch (lines 875-887). -/
def cd_profile_osint (st0 : CDState) (data : Json) : CDState :=
  let st := (getList data "emails_found").foldl
    (fun st email => { st with emails := setAdd st.emails email }) st0
  let st := (getList data "names_found").foldl
    (fun st n => { st with names := st.names ++ [n] }) st
  let st := (getList data "locations_found").foldl
    (fun st loc => { st with locations := st.locations ++ [loc] }) st
  let st := (getList data "social_profiles").foldl
    (fun st p =>
      let plat := platLabel p
      match getTruthy p "url" with
      | some url =>
          if ¬ plat.isEmpty then
            let st1 := { st with links := jsetdefault st.links plat url }
            match getTruthy p "username" with
            | some u =>
                if ¬ jhasKey st1.usernames plat then
                  let entry : Json := .obj [("handle", u), ("url", url)]
                  { st1 with usernames := jset st1.usernames plat entry }
                else st1
            | none => st1
          else st
      | none => st) st
  st

/-- SEARCH ENGINES branch (lines 890-902). -/
def cd_search_engines (st0 : CDState) (data : Json) : CDState :=
  let st := (getList data "notable_links").foldl
    (fun st link =>
      match getTruthy link "title", getTruthy link "url" with
      | some title, some url =>
          { st with posts := st.posts ++ [.obj [
              ("platform", .str "Web"),
              ("title", title),
              ("url", url),
              ("description", (jgetD link "snippet").getD .null)]] }
      | _, _ => st) st0
  let st := (getList data "social_profiles_found").foldl
    (fun st p =>
      let plat := platLabel p
      match getTruthy p "url" with
      | some url =>
          if ¬ plat.isEmpty then { st with links := jsetdefault st.links plat url }
          else st
      | none => st) st
  st

/-- BREACH DIRECTORY branch (lines 905-914). -/
def cd_breachdirectory (st0 : CDState) (data : Json) : CDState :=
  let st :=
    if truthyOpt (jgetD data "found_in_breaches") then
      let st1 := { st0 with compromised := true }
      (getList data "breaches").foldl
        (fun st breach =>
          let source := pyOrJ ((jgetD breach "source").getD .null) (.str "Unknown")
          let date := pyOrJ ((jgetD breach "date").getD .null) (.str "Unknown date")
          { st with
            notes := st.notes ++ ["Found in " ++ pyStr source ++ " breach (" ++ pyStr date ++ ")"],
            keyEvents := st.keyEvents ++ [(date, "Data breach: " ++ pyStr source)] }) st1
    else st0
  if truthyOpt (jgetD data "passwords_exposed") then
    { st with notes := st.notes ++ ["⚠️ Passwords exposed in breaches"] }
  else st

/-- COMPROMISE CHECK branch (lines 917-923). -/
def cd_compromise (st0 : CDState) (data : Json) : CDState :=
  if truthyOpt (jgetD data "is_compromised") then
    let st := { st0 with compromised := true }
    let st := (getList data "breach_sources").foldl
      (fun st source =>
        { st with notes := st.notes ++ ["Compromised via: " ++ pyStr source] }) st
    match getTruthy data "risk_level" with
    | some v =>
        let rendered := match v with | .str s => pyUpper s | w => pyUpper (pyStr w)
        { st with notes := st.notes ++ ["Risk level: " ++ rendered] }
    | none => st
  else st0

/-- Per-entry dispatch of `_correlate_cleaned_data` (lines 604-923):
extract the platform label and payload, skip failed cleanings, branch by
platform. -/
def cd_entry (st : CDState) (entry : Json) : CDState :=
  let platform : String :=
    match pyOrOpt (jgetD entry "collection") (jgetD entry "platform") with
    | some v => if v.truthy then (match v with | .str s => pyLower s | w => pyLower (pyStr w)) else ""
    | none => ""
  let data : Json :=
    match pyOrOpt (jgetD entry "data") (jgetD entry "cleaned_data") with
    | some v => if v.truthy then v else .obj []
    | none => .obj []
  if truthyOpt (jgetD data "error") then st
  else if platform = "github" then cd_github st data
  else if platform = "twitter" then cd_twitter st data
  else if platform = "reddit" then cd_reddit st data
  else if platform = "snapchat" then cd_snapchat st data
  else if platform = "stackoverflow" then cd_stackoverflow st data
  else if platform = "linkedin" then cd_linkedin st data
  else if platform = "profile_osint" then cd_profile_osint st data
  else if platform = "search_engines" then cd_search_engines st data
  else if platform = "breachdirectory" then cd_breachdirectory st data
  else if platform = "compromise" then cd_compromise st data
  else st

/-- Python `len()`; numbers/bools/None have no length and make Python
raise — the claims only measure strings, where this is exact. -/
def pyLen : Json → Nat
  | .str s => s.length
  | .arr l => l.length
  | .obj l => l.length
  | _ => 0

/-- Python `max(names_found, key=len)`: the first element of maximal
length wins (strict `>` comparison keeps the earliest maximum).  Python
raises on an empty sequence; the caller guards non-emptiness. -/
def pyMaxByLen : List Json → Json
  | [] => .null
  | x :: xs => xs.foldl (fun best c => if pyLen c > pyLen best then c else best) x

/-- Python `list(dict.fromkeys(l))`: deduplicate keeping the first
occurrence, preserving order. -/
def dedupKeepFirst (l : List Json) : List Json :=
  l.foldl (fun acc x => if acc.any (fun y => Json.beq y x) then acc else acc ++ [x]) []

/-- Title picked by the post-deduplication loop: `post.get("title") or ""`. -/
def postTitle (p : Json) : Json := pyOrJ ((jgetD p "title").getD .null) (.str "")

/-- Post-deduplication loop of `_correlate_cleaned_data` (lines
947-954): keep a post only when its title is truthy and not seen yet. -/
def dedup_posts_go (seen : List Json) : List Json → List Json
  | [] => []
  | p :: ps =>
      let title := postTitle p
      if title.truthy ∧ ¬ seen.any (fun t => Json.beq t title) then
        p :: dedup_posts_go (title :: seen) ps
      else dedup_posts_go seen ps

/-- Posts deduplicated by exact title (first occurrence kept). -/
def dedup_posts_by_title (posts : List Json) : List Json := dedup_posts_go [] posts

/-- Sort key of a key-event date: `x[0] if x[0] else ""` (Python
compares the raw values and raises on mixed non-string types; the
stored dates the claims exercise are strings). -/
def keKey (d : Json) : String :=
  if d.truthy then (match d with | .str s => s | v => pyStr v) else ""

/-- Stable ascending insertion for key events. -/
def insortKE (ke : Json × String) : List (Json × String) → List (Json × String)
  | [] => [ke]
  | h :: t => if strLt (keKey ke.1) (keKey h.1) then ke :: h :: t else h :: insortKE ke t

/-- Python `key_events.sort(key=lambda x: x[0] if x[0] else "")`:
stable ascending sort. -/
def sortKeyEvents (l : List (Json × String)) : List (Json × String) :=
  l.foldl (fun acc ke => insortKE ke acc) []

/-- Source `_correlate_cleaned_data` (lines 566-998): fold the cleaned
records through the per-platform branches, then assemble the final
profile dict exactly as the BUILD FINAL PROFILE section does. -/
def correlate_cleaned_data (cleaned_results : List Json) (identifier : String) : Json :=
  let st := cleaned_results.foldl cd_entry {}
  let name : Json :=
    if st.names.isEmpty then .str identifier else pyMaxByLen st.names
  let bio : Json :=
    if st.bios.isEmpty then .str ""
    else .str (" | ".intercalate (((dedupKeepFirst st.bios).take 3).map pyStr))
  let location : Json :=
    match st.locations with
    | [] => .str ""
    | l :: _ => l
  let unique_posts := dedup_posts_by_title st.posts
  let postsF := unique_posts.take 50
  let interestsF := st.interests.take 30
  let kt := ((sortKeyEvents st.keyEvents).take 20).map
    (fun de => Json.str (pyStr de.1 ++ ": " ++ de.2))
  let anomalies : List Json :=
    if st.notes.isEmpty then [] else st.notes.map Json.str
  let platform_count := st.usernames.length
  let profile_type : String :=
    if platform_count ≥ 4 then "comprehensive"
    else if platform_count ≥ 2 then "moderate"
    else "limited"
  let platforms_str : String :=
    if st.usernames.isEmpty then "unknown platforms"
    else ", ".intercalate (st.usernames.map (·.1))
  let repo_count := st.repos.length
  let post_count := unique_posts.length
  let about_parts : List String :=
    [pyStr name ++ " is active on " ++ platforms_str] ++
    (if repo_count ≠ 0 then ["with " ++ toString repo_count ++ " repositories"] else []) ++
    (if post_count ≠ 0 then ["and " ++ toString post_count ++ " posts/activities found"] else []) ++
    (if location.truthy then ["based in " ++ pyStr location] else [])
  let about : String := ". ".intercalate about_parts ++ "."
  let compromise_str : String := if st.compromised then "COMPROMISED" else "NO"
  let summary : String :=
    "Profile: " ++ pyStr name ++ " | Platforms: " ++ toString platform_count ++
    " | Repos: " ++ toString repo_count ++ " | Posts: " ++ toString post_count ++
    " | Compromised: " ++ compromise_str
  .obj [("name", name),
        ("profile_type", .str profile_type),
        ("about", .str about),
        ("usernames", .obj st.usernames),
        ("bio", bio),
        ("emails", .arr st.emails),
        ("primary_location", location),
        ("posts", .arr postsF),
        ("repositories", .arr st.repos),
        ("activity_patterns", .str ""),
        ("possible_interests", .arr interestsF),
        ("relationship_graph", .arr st.relationship),
        ("behavioral_anomalies", .arr anomalies),
        ("key_timelines", .arr kt),
        ("links", .obj st.links),
        ("compromised", .bool st.compromised),
        ("summary", .str summary),
        ("llm_analysis", .null)]

-- ==========================
-- Rule-based correlation (_rule_based_correlation, lines 1156-1623)
-- ==========================

/-- Mutable state of `_rule_based_correlation`: the three scalar
`base_profile` fields written inside the platform passes plus the shared
aggregation containers of lines 1188-1195. -/
structure RBState where
  name : Json
  bio : Json
  location : Json
  usernames : List (String × Json) := []
  relationship : List Json := []
  emails : List Json := []
  interests : List Json := []
  links : List (String × Json) := []
  posts : List Json := []
  repos : List Json := []
  keyEvents : List (Json × String) := []
  compromised : Bool := false
  notes : List String := []
  deriving Repr

/-- Lower-cased collection label `(entry.get("collection") or
"").lower()` (a truthy non-string would make Python raise at `.lower()`;
modelled via its rendering, unexercised by the claims). -/
def rb_coll (entry : Json) : String :=
  match jgetD entry "collection" with
  | some v => if v.truthy then (match v with | .str s => pyLower s | w => pyLower (pyStr w)) else ""
  | none => ""

/-- Payload `entry.get("data") or {}`. -/
def rb_data (entry : Json) : Json :=
  match jgetD entry "data" with
  | some v => if v.truthy then v else .obj []
  | none => .obj []

/-- GitHub pass body (lines 1202-1250). -/
def rb_github (st0 : RBState) (data : Json) : RBState :=
  let gh_root := pyOrJ ((jgetD data "data").getD .null) data
  let user := pyOrJ ((jgetD gh_root "user").getD .null) (.obj [])
  let st := match getTruthy user "name" with
    | some v => if ¬ st0.name.truthy then { st0 with name := v } else st0
    | none => st0
  let st := match getTruthy user "login" with
    | some login =>
        let url := pyOrJ ((jgetD user "html_url").getD .null)
                     (.str ("https://github.com/" ++ pyStr login))
        let entry : Json := .obj [("handle", login), ("url", url)]
        { st with usernames := jset st.usernames "github" entry }
    | none => st
  let st := match getTruthy user "bio" with
    | some v => if ¬ st.bio.truthy then { st with bio := v } else st
    | none => st
  let st := match getTruthy user "email" with
    | some v => { st with emails := setAdd st.emails v }
    | none => st
  let st := match getTruthy user "location" with
    | some v => if ¬ st.location.truthy then { st with location := v } else st
    | none => st
  let st := match getTruthy user "created_at" with
    | some v => { st with keyEvents := st.keyEvents ++ [(v, "GitHub account created")] }
    | none => st
  let st := match getTruthy user "blog" with
    | some v => { st with links := jsetdefault st.links "website" v }
    | none => st
  let st := (getList gh_root "repos").foldl
    (fun st r =>
      { st with repos := st.repos ++ [.obj [
          ("name", (jgetD r "name").getD .null),
          ("url", (jgetD r "html_url").getD .null),
          ("description", (jgetD r "description").getD .null),
          ("stars", (jgetD r "stargazers_count").getD .null),
          ("forks", (jgetD r "forks_count").getD .null),
          ("last_updated", (jgetD r "updated_at").getD .null)]] }) st
  let st := (getList gh_root "followers_sample").foldl
    (fun st f =>
      match getTruthy f "login" with
      | some login =>
          { st with relationship := st.relationship ++ [.obj [
              ("username", login),
              ("platform", .str "GitHub"),
              ("type", .str "follower"),
              ("url", (jgetD f "html_url").getD .null)]] }
      | none => st) st
  let st := (getList gh_root "following_sample").foldl
    (fun st f =>
      match getTruthy f "login" with
      | some login =>
          { st with relationship := st.relationship ++ [.obj [
              ("username", login),
              ("platform", .str "GitHub"),
              ("type", .str "following"),
              ("url", (jgetD f "html_url").getD .null)]] }
      | none => st) st
  st

/-- Twitter pass body (lines 1257-1310). -/
def rb_twitter (st0 : RBState) (data : Json) : RBState :=
  let tw_root := data
  let user := pyOrJ ((jgetD tw_root "user").getD .null) (.obj [])
  let handleOpt := getTruthy user "username"
  let st := match getTruthy user "name" with
    | some v => if ¬ st0.name.truthy then { st0 with name := v } else st0
    | none => st0
  let st := match handleOpt with
    | some handle =>
        let url : Json := .str ("https://twitter.com/" ++ pyStr handle)
        let entry : Json := .obj [("handle", handle), ("url", url)]
        { st with usernames := jset st.usernames "twitter" entry,
                  links := jsetdefault st.links "twitter" url }
    | none => st
  let st := match getTruthy user "description" with
    | some v => if ¬ st.bio.truthy then { st with bio := v } else st
    | none => st
  let st := match getTruthy user "location" with
    | some v => if ¬ st.location.truthy then { st with location := v } else st
    | none => st
  let st := match getTruthy user "created_at" with
    | some v => { st with keyEvents := st.keyEvents ++ [(v, "Twitter account created")] }
    | none => st
  let st := match getTruthy user "url" with
    | some v => { st with links := jsetdefault st.links "website" v }
    | none => st
  let tweets := pyOrJ ((jgetD tw_root "tweets").getD .null) (.arr [])
  let tweet_list : List Json :=
    match tweets with
    | .obj kvs =>
        match (jfind kvs "data").getD (.arr []) with
        | .arr l => l
        | _ => []
    | .arr l => l
    | _ => []
  let st := tweet_list.foldl
    (fun st t =>
      let url : Json :=
        match handleOpt, getTruthy t "id" with
        | some handle, some tid =>
            .str ("https://twitter.com/" ++ pyStr handle ++ "/status/" ++ pyStr tid)
        | _, _ => .null
      { st with posts := st.posts ++ [.obj [
          ("platform", .str "Twitter"),
          ("title", .str (pyTake (getStrOrEmpty t "text").trim 120)),
          ("url", url),
          ("date", (jgetD t "created_at").getD .null),
          ("metrics", (jgetD t "public_metrics").getD .null)]] }) st
  let followers := pyOrJ ((jgetD tw_root "followers").getD .null) (.obj [])
  let fl_data : List Json :=
    match followers with
    | .obj kvs => (match jget kvs "data" with | some (.arr l) => l | _ => [])
    | .arr l => l
    | _ => []
  let st := fl_data.foldl
    (fun st f =>
      match getTruthy f "username" with
      | some u =>
          { st with relationship := st.relationship ++ [.obj [
              ("username", u),
              ("platform", .str "Twitter"),
              ("type", .str "follower"),
              ("url", .str ("https://twitter.com/" ++ pyStr u))]] }
      | none => st) st
  let following := pyOrJ ((jgetD tw_root "following").getD .null) (.obj [])
  let fo_data : List Json :=
    match following with
    | .obj kvs => (match jget kvs "data" with | some (.arr l) => l | _ => [])
    | .arr l => l
    | _ => []
  let st := fo_data.foldl
    (fun st f =>
      match getTruthy f "username" with
      | some u =>
          { st with relationship := st.relationship ++ [.obj [
              ("username", u),
              ("platform", .str "Twitter"),
              ("type", .str "following"),
              ("url", .str ("https://twitter.com/" ++ pyStr u))]] }
      | none => st) st
  st

/-- Snapchat pass body (lines 1317-1401). -/
def rb_snapchat (st0 : RBState) (data : Json) : RBState :=
  let sc_root := data
  let profile := pyOrJ ((jgetD sc_root "profile_info").getD .null) (.obj [])
  let account := pyOrJ ((jgetD sc_root "account_details").getD .null) (.obj [])
  let sc_usernameOpt := pyOrOpt (jgetD profile "username") (jgetD sc_root "normalized_username")
  let st :=
    if truthyOpt sc_usernameOpt then
      let u := sc_usernameOpt.getD .null
      let url : Json := .str ("https://www.snapchat.com/add/" ++ pyStr u)
      let entry : Json := .obj [("handle", u), ("url", url),
                                ("bio", (jgetD profile "bio").getD .null)]
      { st0 with usernames := jset st0.usernames "snapchat" entry,
                 links := jsetdefault st0.links "snapchat" url }
    else st0
  let st := match getTruthy profile "display_name" with
    | some v => if ¬ st.name.truthy then { st with name := v } else st
    | none => st
  let st := match getTruthy profile "bio" with
    | some v => if ¬ st.bio.truthy then { st with bio := v } else st
    | none => st
  let st := match getTruthy profile "location" with
    | some v => if ¬ st.location.truthy then { st with location := v } else st
    | none => st
  let follower_count := pyOrOpt (jgetD sc_root "follower_count") (jgetD account "follower_count")
  let st :=
    if truthyOpt follower_count then
      let tag : Json := .str ("Snapchat influencer (" ++
        pyFmtComma (follower_count.getD .null) ++ " followers)")
      { st with interests := setAdd st.interests tag }
    else st
  let st := (getList sc_root "external_sites").foldl
    (fun st site =>
      if site.truthy ∧ ¬ jhasKey st.links "website" then
        let v : Json :=
          match site with
          | .str s => if pyStartsWith s "http" then site else .str ("https://" ++ s)
          | w => .str ("https://" ++ pyStr w)
        { st with links := jset st.links "website" v }
      else st) st
  let st := ((getList profile "interests").take 15).foldl
    (fun st interest =>
      if interest.truthy then { st with interests := setAdd st.interests interest } else st) st
  let st := ((getList sc_root "spotlight_videos").take 5).foldl
    (fun st video =>
      { st with posts := st.posts ++ [.obj [
          ("platform", .str "Snapchat"),
          ("title", pyOrJ ((jgetD video "title").getD .null) (.str "Spotlight Video")),
          ("url", (jgetD video "url").getD .null),
          ("date", (jgetD video "upload_date").getD .null),
          ("metrics", .obj [("views", (jgetD video "watch_count").getD .null),
                            ("likes", (jgetD video "like_count").getD .null),
                            ("comments", (jgetD video "comment_count").getD .null)])]] }) st
  let st := ((getList sc_root "highlights").take 5).foldl
    (fun st highlight =>
      { st with posts := st.posts ++ [.obj [
          ("platform", .str "Snapchat"),
          ("title", pyOrJ ((jgetD highlight "title").getD .null)
                      (pyOrJ ((jgetD highlight "name").getD .null) (.str "Story Highlight"))),
          ("url", (jgetD highlight "url").getD .null),
          ("date", pyOrJ ((jgetD highlight "date").getD .null)
                      ((jgetD highlight "created_at").getD .null))]] }) st
  let st := ((asList (pyOrOpt (jgetD sc_root "stories") (jgetD sc_root "public_stories"))).take 5).foldl
    (fun st story =>
      { st with posts := st.posts ++ [.obj [
          ("platform", .str "Snapchat"),
          ("title", pyOrJ ((jgetD story "title").getD .null) (.str "Story")),
          ("url", (jgetD story "url").getD .null),
          ("date", pyOrJ ((jgetD story "date").getD .null)
                      ((jgetD story "posted_at").getD .null)),
          ("metrics", .obj [("views", (jgetD story "views").getD .null)])]] }) st
  let st := match getTruthy sc_root "account_created" with
    | some v => { st with keyEvents := st.keyEvents ++ [(v, "Snapchat account created")] }
    | none => st
  let st := match getTruthy profile "verified" with
    | some _ => { st with interests := setAdd st.interests (.str "Verified Snapchat account") }
    | none => st
  st

/-- Rendering of a Unix timestamp by `datetime.fromtimestamp(…)
.strftime("%Y-%m-%d")`; the calendar arithmetic is abstracted to a
deterministic marker — no checked claim inspects this date string. -/
def tsDate (n : Int) : String := "date-of-ts-" ++ toString n

/-- StackOverflow pass body (lines 1408-1467); the loop breaks after the
first user. -/
def rb_stackoverflow (st0 : RBState) (data : Json) : RBState :=
  match getList data "users" with
  | [] => st0
  | user :: _ =>
      let so_usernameOpt := getTruthy user "display_name"
      let st :=
        match so_usernameOpt, getTruthy user "user_id" with
        | some su, some uid =>
            let url := pyOrJ ((jgetD user "link").getD .null)
              (.str ("https://stackoverflow.com/users/" ++ pyStr uid))
            let entry : Json := .obj [("handle", su), ("url", url)]
            { st0 with usernames := jset st0.usernames "stackoverflow" entry,
                       links := jsetdefault st0.links "stackoverflow" url }
        | _, _ => st0
      let st := match so_usernameOpt with
        | some su => if ¬ st.name.truthy then { st with name := su } else st
        | none => st
      let st := match getTruthy user "location" with
        | some v => if ¬ st.location.truthy then { st with location := v } else st
        | none => st
      let st := match getTruthy user "reputation" with
        | some v =>
            let tag : Json := .str ("StackOverflow expert (rep: " ++ pyFmtComma v ++ ")")
            { st with interests := setAdd st.interests tag }
        | none => st
      let badges := pyOrJ ((jgetD user "badge_counts").getD .null) (.obj [])
      let gold := rawGetDefault badges "gold" (.num 0)
      let silver := rawGetDefault badges "silver" (.num 0)
      let bronze := rawGetDefault badges "bronze" (.num 0)
      let st :=
        if gold.truthy ∨ silver.truthy ∨ bronze.truthy then
          let tag : Json := .str ("SO badges: " ++ pyStr gold ++ "🥇 " ++
            pyStr silver ++ "🥈 " ++ pyStr bronze ++ "🥉")
          { st with interests := setAdd st.interests tag }
        else st
      let st := match getTruthy user "creation_date" with
        | some (.num n) =>
            { st with keyEvents := st.keyEvents ++ [(.str (tsDate n), "StackOverflow account created")] }
        | some _ => st
        | none => st
      let st := match getTruthy user "website_url" with
        | some v => { st with links := jsetdefault st.links "website" v }
        | none => st
      let st := ((getList user "top_tags").take 10).foldl
        (fun st tag =>
          match getTruthy tag "tag_name" with
          | some tag_name => { st with interests := setAdd st.interests tag_name }
          | none => st) st
      st

/-- Reddit pass body (lines 1474-1500). -/
def rb_reddit (st0 : RBState) (data : Json) : RBState :=
  let rd_root := data
  let user_info := pyOrJ ((jgetD rd_root "user_info").getD .null) (.obj [])
  let st := match getTruthy user_info "username" with
    | some u =>
        let url : Json := .str ("https://reddit.com/user/" ++ pyStr u)
        let entry : Json := .obj [("handle", u), ("url", url)]
        { st0 with usernames := jset st0.usernames "reddit" entry,
                   links := jsetdefault st0.links "reddit" url }
    | none => st0
  let st := match getTruthy user_info "account_creation_date" with
    | some v => { st with keyEvents := st.keyEvents ++ [(v, "Reddit account created")] }
    | none => st
  let st := (getList rd_root "posts").foldl
    (fun st p =>
      { st with posts := st.posts ++ [.obj [
          ("platform", .str "Reddit"),
          ("title", (jgetD p "title").getD .null),
          ("url", (jgetD p "url").getD .null),
          ("date", (jgetD p "timestamp").getD .null),
          ("metrics", .obj [("upvotes", (jgetD p "upvotes").getD .null),
                            ("downvotes", (jgetD p "downvotes").getD .null)])]] }) st
  let activity := pyOrJ ((jgetD rd_root "activity_metrics").getD .null) (.obj [])
  let st := (getList activity "most_active_subreddits").foldl
    (fun st s =>
      match s with
      | .arr [n, _] =>
          if n.truthy then { st with interests := setAdd st.interests (.str ("r/" ++ pyStr n)) }
          else st
      | _ => st) st
  st

/-- Characters after the first `//`, if any (hostname start in a URL). -/
def afterDoubleSlash : List Char → Option (List Char)
  | [] => none
  | a :: b :: rest => if a = '/' ∧ b = '/' then some rest else afterDoubleSlash (b :: rest)
  | _ :: [] => none

/-- Hostname of a URL as `urlparse(url).netloc` computes it for the
`scheme://host/path` shapes the collectors store (exotic URL forms are
not exercised by the claims). -/
def netlocOf (s : String) : String :=
  match afterDoubleSlash s.data with
  | some r => String.mk (r.takeWhile (fun c => c ≠ '/'))
  | none => ""

/-- ProfileOSINT / Search-engines pass body (lines 1507-1548). -/
def rb_osint_search (st0 : RBState) (data : Json) : RBState :=
  (getList data "results").foldl
    (fun st r =>
      let urlOpt := jgetD r "url"
      if ¬ truthyOpt urlOpt then st
      else
        let url := urlOpt.getD .null
        let platform0 : String :=
          match getTruthy r "platform" with
          | some (.str s) => pyLower s
          | some v => pyLower (pyStr v)
          | none => pyLower "Other"
        let host : String :=
          match url with
          | .str s => pyLower (netlocOf s)
          | _ => ""
        let inferred : Option String :=
          if pyIn "linkedin.com" host then some "linkedin"
          else if pyIn "github.com" host then some "github"
          else if pyIn "twitter.com" host ∨ pyIn "x.com" host then some "twitter"
          else if pyIn "reddit.com" host then some "reddit"
          else if pyIn "youtube.com" host ∨ pyIn "youtu.be" host then some "youtube"
          else none
        let platform : String :=
          if platform0 = "other" then
            match inferred with
            | some p => p
            | none => platform0
          else platform0
        let st :=
          if platform = "github" ∧ ¬ jhasKey st.links "github" then
            { st with links := jset st.links "github" url }
          else if (platform = "linkedin" ∨ platform = "twitter" ∨ platform = "reddit"
                   ∨ platform = "youtube") ∧ ¬ jhasKey st.links platform then
            { st with links := jset st.links platform url }
          else st
        (getList r "entities").foldl
          (fun st ent =>
            let entType := (jgetD ent "type").getD .null
            let st :=
              if Json.beq entType (.str "EMAIL") then
                { st with emails := setAdd st.emails ((jgetD ent "text").getD .null) }
              else st
            if Json.beq entType (.str "NAME") ∧ ¬ st.name.truthy then
              { st with name := (jgetD ent "text").getD .null }
            else st) st) st0

/-- BreachDirectory pass body (lines 1555-1559); a non-numeric truthy
`found` would make the Python `>` comparison raise — unexercised. -/
def rb_breachdirectory (st0 : RBState) (data : Json) : RBState :=
  let found := pyOrJ ((jgetD data "found").getD .null) (.num 0)
  match found with
  | .num n =>
      if n > 0 then
        { st0 with compromised := true,
                   notes := st0.notes ++ ["BreachDirectory reports " ++ pyStr found ++ " leaked records."] }
      else st0
  | _ => st0

/-- Compromise-check pass body (lines 1566-1570). -/
def rb_compromise (st0 : RBState) (data : Json) : RBState :=
  let status : String :=
    match getTruthy data "status" with
    | some (.str s) => pyUpper s
    | some v => pyUpper (pyStr v)
    | none => ""
  if status = "COMPROMISED" ∨ status = "AT RISK" then
    { st0 with compromised := true,
               notes := st0.notes ++ ["HudsonRock/COMB status: " ++ status ++ " (score " ++
                 pyStr ((jgetD data "compromise_score").getD .null) ++ ")."] }
  else st0

/-- Python `sorted` over the collected JSON values (emails, interests):
exact when all elements are strings (the case the code produces for
emails); mixed types would raise in Python and are left unsorted here
(unexercised by the claims). -/
def sortJsonStrings (l : List Json) : List Json :=
  if l.all (fun j => match j with | .str _ => true | _ => false) then
    (pySorted (l.map pyStr)).map Json.str
  else l

/-- Incrementing counter for the activity-pattern platform counts
(insertion-ordered dict of counts). -/
def bumpCount : List (String × Nat) → String → List (String × Nat)
  | [], k => [(k, 1)]
  | (k2, n) :: rest, k =>
      if k2 = k then (k2, n + 1) :: rest else (k2, n) :: bumpCount rest k

/-- Sorted key events of the rule-based finaliser: `sorted(key_events,
key=lambda x: x[0])` inside try/except — exact when all dates are
strings, and the unsorted input is kept when the comparison would raise
(the `except` branch). -/
def sortKeyEventsOrKeep (l : List (Json × String)) : List (Json × String) :=
  if l.all (fun ke => match ke.1 with | .str _ => true | _ => false) then
    l.foldl (fun acc ke => insortKE ke acc) []
  else l

/-- Source `_rule_based_correlation` (lines 1156-1623): the empty /
non-list input short-circuits to the "no data" profile (without
classification), otherwise the eight platform passes run over the
documents and the profile is finalised and classified. -/
def rule_based_correlation (structured_osint : Json) (identifier : String) : Json :=
  match structured_osint with
  | .arr (e0 :: rest) =>
      let entries := e0 :: rest
      let st0 : RBState := { name := .str identifier, bio := .str "", location := .str "" }
      let st := entries.foldl
        (fun st e => if rb_coll e = "github" then rb_github st (rb_data e) else st) st0
      let st := entries.foldl
        (fun st e => if rb_coll e = "twitter" then rb_twitter st (rb_data e) else st) st
      let st := entries.foldl
        (fun st e => if rb_coll e = "snapchat" then rb_snapchat st (rb_data e) else st) st
      let st := entries.foldl
        (fun st e => if rb_coll e = "stackoverflow" then rb_stackoverflow st (rb_data e) else st) st
      let st := entries.foldl
        (fun st e => if rb_coll e = "reddit" then rb_reddit st (rb_data e) else st) st
      let st := entries.foldl
        (fun st e =>
          if rb_coll e = "profile_osint" ∨ rb_coll e = "search_engines" then
            rb_osint_search st (rb_data e)
          else st) st
      let st := entries.foldl
        (fun st e => if rb_coll e = "breachdirectory" then rb_breachdirectory st (rb_data e) else st) st
      let st := entries.foldl
        (fun st e => if rb_coll e = "compromise" then rb_compromise st (rb_data e) else st) st
      let emailsF := sortJsonStrings (st.emails.filter (·.truthy))
      let interestsF := sortJsonStrings st.interests
      let platforms := pySorted (st.usernames.map (·.1))
      let total_repos := st.repos.length
      let total_posts := st.posts.length
      let summary_bits : List String :=
        (if st.name.truthy then ["Profile: " ++ pyStr st.name] else []) ++
        (if ¬ platforms.isEmpty then ["Platforms: " ++ ", ".intercalate platforms] else []) ++
        (if total_repos ≠ 0 then ["GitHub repositories: " ++ toString total_repos] else []) ++
        (if total_posts ≠ 0 then ["Social posts collected: " ++ toString total_posts] else []) ++
        [if st.compromised then "Compromised: YES" else "Compromised: NO"] ++
        (if ¬ st.notes.isEmpty then ["; ".intercalate st.notes] else [])
      let summary := " | ".intercalate summary_bits
      let kt := (sortKeyEventsOrKeep st.keyEvents).map
        (fun de => Json.str (pyStr de.1 ++ ": " ++ de.2))
      let platform_counts := st.posts.foldl
        (fun counts p =>
          let plat : String :=
            match getTruthy p "platform" with
            | some (.str s) => pyLower s
            | some v => pyLower (pyStr v)
            | none => ""
          if ¬ plat.isEmpty then bumpCount counts plat else counts) []
      let parts : List String :=
        (if ¬ platform_counts.isEmpty then
           ["Activity: " ++ ", ".intercalate (platform_counts.map
              (fun kv => kv.1 ++ "=" ++ toString kv.2 ++ " posts"))]
         else []) ++
        (if ¬ st.repos.isEmpty then
           ["GitHub repos observed: " ++ toString st.repos.length]
         else [])
      let activity : Json :=
        if ¬ parts.isEmpty then .str (" | ".intercalate parts) else .str ""
      ensure_profile_classification (.obj
        [("name", st.name),
         ("profile_type", .null),
         ("about", .null),
         ("usernames", .obj st.usernames),
         ("bio", st.bio),
         ("emails", .arr emailsF),
         ("primary_location", st.location),
         ("posts", .arr st.posts),
         ("repositories", .arr st.repos),
         ("activity_patterns", activity),
         ("possible_interests", .arr interestsF),
         ("relationship_graph", .arr st.relationship),
         ("behavioral_anomalies", .arr []),
         ("key_timelines", .arr kt),
         ("links", .obj st.links),
         ("compromised", .bool st.compromised),
         ("summary", .str summary),
         ("llm_analysis", .null)])
  | _ =>
      .obj [("name", .str identifier),
            ("profile_type", .null),
            ("about", .null),
            ("usernames", .obj []),
            ("bio", .str ""),
            ("emails", .arr []),
            ("primary_location", .str ""),
            ("posts", .arr []),
            ("repositories", .arr []),
            ("activity_patterns", .str ""),
            ("possible_interests", .arr []),
            ("relationship_graph", .arr []),
            ("behavioral_anomalies", .arr []),
            ("key_timelines", .arr []),
            ("links", .obj []),
            ("compromised", .bool false),
            ("summary", .str "No OSINT data available for this identifier yet. Run data collection first."),
            ("llm_analysis", .null)]

-- ==========================
-- Deep-clean finalisation (run_deep_clean_correlation, lines 1104-1119)
-- ==========================

/-- Success tail of `run_deep_clean_correlation`: correlate the cleaned
records, attach the `_deep_clean_meta` block (its wall-clock content is
the opaque `meta` argument), then coerce to the canonical schema.  The
Mongo loading/cleaning phase that produces `cleaned_results` is
effectful and outside this model. -/
def deep_clean_finalize (cleaned_results : List Json) (identifier : String) (meta : Json) : Json :=
  let correlation_result := correlate_cleaned_data cleaned_results identifier
  let withMeta : Json :=
    match correlation_result with
    | .obj kvs => .obj (jset kvs "_deep_clean_meta" meta)
    | j => j
  coerce_profile_schema withMeta

-- ==========================
-- Prompt building and the self-mode safety guard
-- (build_prompt lines 276-353, run_correlation lines 1835-1850)
-- ==========================

/-- SAFE_KEYWORDS set (lines 41-45; the literal lists "timeline" twice,
a set holds it once). -/
def SAFE_KEYWORDS : List String :=
  ["osint", "correlation", "profile", "user", "social media", "github",
   "twitter", "reddit", "account", "username", "analysis", "breach",
   "compromise", "leak", "email", "repository", "repos", "post", "posts",
   "timeline"]

/-- Source `is_osint_prompt`: empty text fails, otherwise at least
`threshold` keywords must occur as substrings of the lower-cased text. -/
def is_osint_prompt (text : String) (threshold : Nat := 1) : Bool :=
  if text.isEmpty then false
  else
    let lower := pyLower text
    (SAFE_KEYWORDS.countP (fun kw => pyIn kw lower)) ≥ threshold

/-- Return shape of `build_prompt`: the source signals rejection by
returning `json.dumps(\x7b"error": …\x7d)` instead of a prompt; the
caller recognises that branch by a successful `json.loads` (every
real prompt starts with prose and fails to parse), so the two branches
are modelled as distinct constructors. -/
inductive PromptResult where
  | errorJson (message : String)
  | prompt (text : String)
  deriving Repr, DecidableEq

/-- Source `build_prompt` (lines 276-353).  The claims depend only on
which branch is taken and on the mode dispatch, so the long literal
instruction texts are abbreviated to markers here. -/
def build_prompt (mode : String) (osint_data : String) (custom_prompt : String) : PromptResult :=
  let base := "<ShadowHorn base instruction and schema description> " ++ osint_data
  if mode = "fast" then .prompt (base ++ " <FAST mode addition>")
  else if mode = "deep" then .prompt (base ++ " <DEEP mode addition>")
  else if mode = "self" then
    if custom_prompt.isEmpty ∨ ¬ is_osint_prompt custom_prompt then
      .errorJson "Invalid custom prompt. For self mode, provide an OSINT-related instruction."
    else .prompt (base ++ " <SELF mode addition> " ++ custom_prompt)
  else .prompt (base ++ " Instructions: Output valid JSON only using the required schema.")

/-- Outcome of the prompt-guard step at the top of `run_correlation`
(lines 1835-1850): `rejected` is the early return of line 1842, which
happens before `choose_backend` is consulted (line 1848) and before any
model client exists; `proceed` hands the prompt to backend selection. -/
inductive GuardStep where
  | rejected (error : String)
  | proceed (prompt : String)
  deriving Repr, DecidableEq

/-- The guard: detect the JSON-error return of `build_prompt` and bail
out, otherwise continue towards backend selection with the prompt. -/
def run_correlation_guard (mode : String) (osint_data : String) (custom_prompt : String) : GuardStep :=
  match build_prompt mode osint_data custom_prompt with
  | .errorJson e => .rejected e
  | .prompt p => .proceed p

-- ==========================
-- Remote multi-model loop with retry/backoff
-- (run_correlation, lines 24-27 and 1897-1975)
-- ==========================

/-- Retry configuration (lines 25-27). -/
def MAX_RETRIES : Nat := 3

/-- Initial backoff in seconds (line 26). -/
def INITIAL_BACKOFF : ℚ := 0.8

/-- Backoff multiplier (line 27). -/
def BACKOFF_FACTOR : ℚ := 2

/-- Outcome of one `client.chat.completions.create` round as the loop
body observes it: `ok` bundles the extracted response text, the
`clean_model_text` result and the strict `json.loads` of the cleaned
text (`parsed = none` is a `JSONDecodeError`); `exn` is a raised
exception with its `str(e)` message.  These are the external effects the
loop reacts to. -/
inductive CallOutcome where
  | ok (raw cleaned : String) (parsed : Option Json)
  | exn (message : String)

/-- Observable events of the loop: an API attempt (model, 1-based
attempt number) and a `time.sleep` with its duration in seconds. -/
inductive Ev where
  | att (model : String) (attempt : Nat)
  | sleep (seconds : ℚ)
  deriving Repr, DecidableEq

/-- Results the remote branch of `run_correlation` can return: a
non-dict parsed value (returned untouched), a coerced profile with the
`include_backend` tags, the parse-error diagnostic dict of lines
1936-1947, or the all-models-exhausted error dict of lines 1966-1975. -/
inductive RemoteResult where
  | rawOk (value : Json)
  | profileOk (profile : Json) (backend_used model_used fallback_from : Option String)
  | parseError (raw cleaned : String) (model_used : String)
      (backend_used fallback_from : Option String)
  | exhausted (error : String) (models_tried : List String)
      (backend_used model_used : Option String)
  deriving Repr

/-- Capacity / rate-limit substrings (line 1954). -/
def CAPACITY_TOKENS : List String := ["429", "rate limit", "Rate limit", "overloaded", "capacity"]

/-- Transient-error substrings (line 1958). -/
def TRANSIENT_TOKENS : List String := ["503", "Service Unavailable", "No instances available", "timed out", "timeout"]

/-- Message classification by substring match. -/
def isCapacityMsg (msg : String) : Bool := CAPACITY_TOKENS.any (fun t => pyIn t msg)

/-- Transient-error test by substring match. -/
def isTransientMsg (msg : String) : Bool := TRANSIENT_TOKENS.any (fun t => pyIn t msg)

/-- The `fallback_from` tag: set only under `include_backend` when a
truthy first model differs from the current one (lines 1932-1933 and
1945-1946). -/
def fallbackTag (ib : Bool) (first : Option String) (model : String) : Option String :=
  if ib then
    match first with
    | some f => if ¬ f.isEmpty ∧ f ≠ model then some f else none
    | none => none
  else none

/-- Successful-parse return (lines 1925-1934): dicts are coerced and
tagged, anything else is returned as parsed. -/
def successResult (parsed : Json) (ib : Bool) (first : Option String) (model : String) : RemoteResult :=
  match parsed with
  | .obj kvs =>
      .profileOk (coerce_profile_schema (.obj kvs))
        (if ib then some "openrouter" else none)
        (if ib then some model else none)
        (fallbackTag ib first model)
  | v => .rawOk v

/-- What happens after one model is handled: either the function
returned, or the loop advances to the next model carrying the last
error message. -/
inductive ModelStep where
  | done (r : RemoteResult)
  | advance (lastError : Option String)

/-- The inner `while attempt < MAX_RETRIES` loop for one model (lines
1904-1964), with its event trace.  `remaining` counts loop iterations
left (starting at MAX_RETRIES), `attemptNo` is the 1-based attempt
number, `backoff` the current sleep duration. -/
def attemptLoop (call : String → Nat → CallOutcome) (ib : Bool) (first : Option String)
    (model : String) :
    Nat → Nat → ℚ → Option String → ModelStep × List Ev
  | 0, _, _, lastErr => (.advance lastErr, [])
  | remaining + 1, attemptNo, backoff, _lastErr =>
      let ev := Ev.att model attemptNo
      match call model attemptNo with
      | .ok raw cleaned parsed =>
          match parsed with
          | some j => (.done (successResult j ib first model), [ev])
          | none =>
              (.done (.parseError raw cleaned model
                (if ib then some "openrouter" else none)
                (fallbackTag ib first model)), [ev])
      | .exn msg =>
          if isCapacityMsg msg then (.advance (some msg), [ev])
          else if isTransientMsg msg ∧ attemptNo < MAX_RETRIES then
            let rec_ := attemptLoop call ib first model remaining (attemptNo + 1)
              (backoff * BACKOFF_FACTOR) (some msg)
            (rec_.1, ev :: Ev.sleep backoff :: rec_.2)
          else (.advance (some msg), [ev])

/-- The outer `for model_id in models_to_try` loop (lines 1903-1975),
threading `last_error` and accumulating the event trace; exhaustion
builds the structured error of lines 1966-1975. -/
def try_models_go (call : String → Nat → CallOutcome) (ib : Bool) (first : Option String)
    (allModels : List String) :
    List String → Option String → RemoteResult × List Ev
  | [], lastErr =>
      let err : String :=
        match lastErr with
        | some m => if ¬ m.isEmpty then m else "Failed to get response from any OpenRouter model"
        | none => "Failed to get response from any OpenRouter model"
      (.exhausted err allModels
        (if ib then some "openrouter" else none)
        (if ib then (match first with
                     | some f => if ¬ f.isEmpty then some f else none
                     | none => none)
         else none), [])
  | m :: ms, lastErr =>
      match attemptLoop call ib first m MAX_RETRIES 1 INITIAL_BACKOFF lastErr with
      | (.done r, tr) => (r, tr)
      | (.advance le, tr) =>
          let rest := try_models_go call ib first allModels ms le
          (rest.1, tr ++ rest.2)

/-- Remote branch of `run_correlation` given the model priority list and
the per-attempt call outcomes. -/
def run_correlation_models (call : String → Nat → CallOutcome) (models : List String)
    (ib : Bool) : RemoteResult × List Ev :=
  try_models_go call ib models.head? models models none

-- ==========================
-- Accessors and concrete inputs used by the checked properties
-- ==========================

/-- Raw field of a profile dict (absent key reads as null). -/
def getFieldRaw (j : Json) (k : String) : Json :=
  match j with
  | .obj kvs => (jfind kvs k).getD .null
  | _ => .null

/-- Handle stored for a platform in a profile `usernames` map. -/
def handleOf (j : Json) (plat : String) : Json :=
  match getFieldRaw j "usernames" with
  | .obj l =>
      match (jfind l plat).getD .null with
      | .obj e => (jfind e "handle").getD .null
      | _ => .null
  | _ => .null

/-- Key list of a JSON dict. -/
def jsonKeys : Json → List String
  | .obj kvs => kvs.map (·.1)
  | _ => []

/-- Key presence on a JSON value. -/
def jhasKeyJ (j : Json) (k : String) : Bool :=
  match j with
  | .obj kvs => jhasKey kvs k
  | _ => false

/-- Null-or-string test (scalar fields of the canonical schema). -/
def isNullOrStr : Json → Bool
  | .null => true
  | .str _ => true
  | _ => false

/-- Bool test. -/
def isBool : Json → Bool
  | .bool _ => true
  | _ => false

/-- List test. -/
def isArrJ : Json → Bool
  | .arr _ => true
  | _ => false

/-- Dict test. -/
def isObjJ : Json → Bool
  | .obj _ => true
  | _ => false

/-- List-of-strings test. -/
def isArrOfStr : Json → Bool
  | .arr l => l.all (fun x => match x with | .str _ => true | _ => false)
  | _ => false

/-- Shape of a normalised `usernames` entry: a dict with exactly the
keys `handle`, `url`, `bio`. -/
def isNormalizedUserEntry : Json → Bool
  | .obj [(k1, _), (k2, _), (k3, _)] => k1 = "handle" && k2 = "url" && k3 = "bio"
  | _ => false

/-- Every `usernames` value of the profile is a normalised entry. -/
def usernamesNormalized (j : Json) : Bool :=
  match getFieldRaw j "usernames" with
  | .obj l => l.all (fun kv => isNormalizedUserEntry kv.2)
  | _ => false

/-- Handle condition under which coercion is stable: a stored handle is
either null (or missing) or truthy.  A falsy non-null handle (empty
string, 0, false, …) is collapsed to null by the next coercion. -/
def handleOk (e : Json) : Bool :=
  match e with
  | .obj d =>
      match jfind d "handle" with
      | some .null => true
      | some v => v.truthy
      | none => true
  | _ => true

/-- All username handles of a profile satisfy `handleOk`. -/
def usernames_handles_ok (j : Json) : Bool :=
  match getFieldRaw j "usernames" with
  | .obj l => l.all (fun kv => handleOk kv.2)
  | _ => true

/-- Aggregated (pre-deduplication) posts of the cleaned-data
correlator: the `posts` container after the platform loop. -/
def cd_agg_posts (cleaned_results : List Json) : List Json :=
  (cleaned_results.foldl cd_entry {}).posts

/-- Aggregated candidate names of the cleaned-data correlator. -/
def cd_agg_names (cleaned_results : List Json) : List Json :=
  (cleaned_results.foldl cd_entry {}).names

-- Concrete inputs for the checked scenarios.

/-- GitHub raw document of scenario C7. -/
def c7_github_doc : Json :=
  .obj [("collection", .str "github"),
        ("data", .obj [("data", .obj [
          ("user", .obj [("login", .str "alice"), ("bio", .str "dev")]),
          ("repos", .arr [.obj [("name", .str "x"), ("stargazers_count", .num 60)]])])])]

/-- BreachDirectory document of scenario C7. -/
def c7_breach_doc : Json :=
  .obj [("collection", .str "breachdirectory"), ("data", .obj [("found", .num 3)])]

/-- Rule-based correlation output of scenario C7. -/
def c7_profile : Json := rule_based_correlation (.arr [c7_github_doc, c7_breach_doc]) "alice"

/-- The stored profile of scenario C7 (the local backend coerces before
persisting, line 1883). -/
def c7_stored : Json := coerce_profile_schema c7_profile

/-- Reddit raw document carrying two posts with the same title. -/
def c3_reddit_doc : Json :=
  .obj [("collection", .str "reddit"),
        ("data", .obj [("posts", .arr [.obj [("title", .str "T")],
                                       .obj [("title", .str "T")]])])]

/-- Input whose coercion is not a fixed point: a falsy string username
entry. -/
def c2_cex : Json := .obj [("usernames", .obj [("p", .str "")])]

/-- GitHub raw document with the short name "Al". -/
def c4_github_doc : Json :=
  .obj [("collection", .str "github"),
        ("data", .obj [("data", .obj [("user", .obj [("name", .str "Al"),
                                                     ("login", .str "al")])])])]

/-- Twitter raw document with the longer name "Alice Wonderland". -/
def c4_twitter_doc : Json :=
  .obj [("collection", .str "twitter"),
        ("data", .obj [("user", .obj [("name", .str "Alice Wonderland"),
                                      ("username", .str "aw")])])]

/-- Cleaned GitHub record used as a small deep-clean input. -/
def c9_cd_github : Json :=
  .obj [("collection", .str "github"),
        ("data", .obj [("name", .str "Al"), ("username", .str "al")])]

/-- Call oracle of scenario C5: model A raises a 429, model B answers
unparseable text, model C would answer valid JSON. -/
def callC5 : String → Nat → CallOutcome :=
  fun m _ =>
    if m = "A" then .exn "Error code: 429"
    else if m = "B" then .ok "not json" "not json" none
    else .ok "ok" "ok" (some (.obj []))

/-- Call oracle of the C6 counterexample: model A raises an error whose
text contains both "503" and "capacity". -/
def callC6 : String → Nat → CallOutcome :=
  fun m _ => if m = "A" then .exn "503 capacity" else .ok "r" "c" (some (.obj []))

/-- Call oracle of the C6 witness: model A raises a rate-limit error,
model B always raises a plain 503, model C succeeds. -/
def callC6w : String → Nat → CallOutcome :=
  fun m _ =>
    if m = "A" then .exn "Error code: 429 rate limit"
    else if m = "B" then .exn "503 Service Unavailable"
    else .ok "r" "c" (some (.obj []))

/-- Classified `profile_type` value in terms of the stored field value
and the usernames/repositories containers (the computation
`_ensure_profile_classification` performs on a canonical profile
object). -/
def ecPT (pt : Json) (usl : List (String × Json)) (rsl : List Json) : Json :=
  if truthyOpt (jgetV pt) then (jgetV pt).getD .null
  else
    let platforms := pySorted (usl.map (·.1))
    .str (if platforms.contains "github" && (Json.arr rsl).truthy then "developer"
          else if platforms.contains "linkedin" then "professional"
          else if platforms.contains "twitter" || platforms.contains "reddit" then "individual"
          else if !platforms.isEmpty then "online_profile"
          else "unknown")

/-- Classified `about` value on a canonical profile object. -/
def ecAB (n pt ab : Json) (usl : List (String × Json)) (rsl : List Json) : Json :=
  if truthyOpt (jgetV ab) then (jgetV ab).getD .null
  else
    let platforms := pySorted (usl.map (·.1))
    let name : String :=
      match jgetV n with
      | some v => if v.truthy then pyStr v else "This subject"
      | none => "This subject"
    let footprint : String :=
      if platforms.isEmpty then "limited visible platforms"
      else ", ".intercalate (platforms.map pyCapitalize)
    let repoPhrase : String :=
      if rsl.length != 0 then "with public GitHub repositories"
      else "with minimal code exposure"
    .str ((name ++ " appears to be a " ++ pyStr (ecPT pt usl rsl) ++ " active on "
           ++ footprint ++ " " ++ repoPhrase ++ ".").trim)

/-- The canonical profile object `_coerce_profile_schema` produces,
with the classification already folded into the `profile_type` and
`about` slots (proved equal to the source composition below). -/
def coerceFieldsC (src : List (String × Json)) : List (String × Json) :=
  let usl := (coerce_dict (jget src "usernames")).map
    (fun kv => (kv.1, normalize_username_entry kv.2))
  let rsl := normalize_list (jget src "repositories")
  [("name", coerce_scalar (jget src "name")),
   ("profile_type", ecPT (coerce_scalar (jget src "profile_type")) usl rsl),
   ("about", ecAB (coerce_scalar (jget src "name")) (coerce_scalar (jget src "profile_type"))
       (coerce_scalar (jget src "about")) usl rsl),
   ("usernames", .obj usl),
   ("bio", coerce_scalar (jget src "bio")),
   ("emails", .arr ((normalize_list (jget src "emails")).map
       (fun x => .str (pyStr x)))),
   ("primary_location", coerce_scalar (jget src "primary_location")),
   ("posts", .arr (normalize_list (jget src "posts"))),
   ("repositories", .arr rsl),
   ("activity_patterns", coerce_scalar (jget src "activity_patterns")),
   ("possible_interests", .arr ((normalize_list (jget src "possible_interests")).map
       (fun x => .str (pyStr x)))),
   ("relationship_graph", .arr (normalize_list (jget src "relationship_graph"))),
   ("behavioral_anomalies", .arr ((normalize_list (jget src "behavioral_anomalies")).map
       (fun x => .str (pyStr x)))),
   ("key_timelines", .arr ((normalize_list (jget src "key_timelines")).map
       (fun x => .str (pyStr x)))),
   ("links", .obj (coerce_dict (jget src "links"))),
   ("compromised", .bool (coerce_compromised (jget src "compromised"))),
   ("summary", coerce_scalar (jget src "summary")),
   ("llm_analysis", coerce_scalar (jget src "llm_analysis"))]

/-- Cleaned Reddit record carrying two posts with the same title. -/
def c3_cd_reddit : Json :=
  .obj [("collection", .str "reddit"),
        ("data", .obj [("recent_posts", .arr [.obj [("title", .str "T")],
                                              .obj [("title", .str "T")]])])]

/-- The post object the cleaned-data correlator builds from the first
record of `c3_cd_reddit`. -/
def c3_cd_post : Json :=
  .obj [("platform", .str "Reddit"), ("title", .str "T"), ("url", .null),
        ("date", .null),
        ("metrics", .obj [("score", .null), ("subreddit", .null)])]

/-- Posts list of a profile object. -/
def postsOf (j : Json) : List Json :=
  match getFieldRaw j "posts" with
  | .arr l => l
  | _ => []

/-- Name field of a profile object. -/
def nameOf (j : Json) : Json := getFieldRaw j "name"

-- ==========================
-- Theorems
-- ==========================

mutual

theorem Json.beq_iff : ∀ a b : Json, Json.beq a b = true ↔ a = b
  | .null, .null => by simp [Json.beq]
  | .bool _, .bool _ => by simp [Json.beq]
  | .num _, .num _ => by simp [Json.beq]
  | .str _, .str _ => by simp [Json.beq]
  | .arr a, .arr b => by
      simp only [Json.beq, Json.beqList_iff a b, Json.arr.injEq]
  | .obj a, .obj b => by
      simp only [Json.beq, Json.beqObj_iff a b, Json.obj.injEq]
  | .null, .bool _ => by simp [Json.beq]
  | .null, .num _ => by simp [Json.beq]
  | .null, .str _ => by simp [Json.beq]
  | .null, .arr _ => by simp [Json.beq]
  | .null, .obj _ => by simp [Json.beq]
  | .bool _, .null => by simp [Json.beq]
  | .bool _, .num _ => by simp [Json.beq]
  | .bool _, .str _ => by simp [Json.beq]
  | .bool _, .arr _ => by simp [Json.beq]
  | .bool _, .obj _ => by simp [Json.beq]
  | .num _, .null => by simp [Json.beq]
  | .num _, .bool _ => by simp [Json.beq]
  | .num _, .str _ => by simp [Json.beq]
  | .num _, .arr _ => by simp [Json.beq]
  | .num _, .obj _ => by simp [Json.beq]
  | .str _, .null => by simp [Json.beq]
  | .str _, .bool _ => by simp [Json.beq]
  | .str _, .num _ => by simp [Json.beq]
  | .str _, .arr _ => by simp [Json.beq]
  | .str _, .obj _ => by simp [Json.beq]
  | .arr _, .null => by simp [Json.beq]
  | .arr _, .bool _ => by simp [Json.beq]
  | .arr _, .num _ => by simp [Json.beq]
  | .arr _, .str _ => by simp [Json.beq]
  | .arr _, .obj _ => by simp [Json.beq]
  | .obj _, .null => by simp [Json.beq]
  | .obj _, .bool _ => by simp [Json.beq]
  | .obj _, .num _ => by simp [Json.beq]
  | .obj _, .str _ => by simp [Json.beq]
  | .obj _, .arr _ => by simp [Json.beq]

theorem Json.beqList_iff : ∀ a b : List Json, Json.beqList a b = true ↔ a = b
  | [], [] => by simp [Json.beqList]
  | x :: xs, y :: ys => by
      simp [Json.beqList, Json.beq_iff x y, Json.beqList_iff xs ys]
  | [], _ :: _ => by simp [Json.beqList]
  | _ :: _, [] => by simp [Json.beqList]

theorem Json.beqObj_iff : ∀ a b : List (String × Json), Json.beqObj a b = true ↔ a = b
  | [], [] => by simp [Json.beqObj]
  | (_, v1) :: xs, (_, v2) :: ys => by
      simp [Json.beqObj, Json.beq_iff v1 v2, Json.beqObj_iff xs ys, and_assoc]
  | [], _ :: _ => by simp [Json.beqObj]
  | _ :: _, [] => by simp [Json.beqObj]

end

instance : DecidableEq Json := fun a b =>
  decidable_of_iff (Json.beq a b = true) (Json.beq_iff a b)

theorem Json.beq_refl (a : Json) : Json.beq a a = true := (Json.beq_iff a a).2 rfl

/-- The classification pass on a canonical 18-key profile object only
rewrites the `profile_type` and `about` slots, to the `ecPT`/`ecAB`
values. -/
theorem ensure_on_canonical (n pt ab b loc ap sm la : Json)
    (usl lkl : List (String × Json)) (eml psl rsl pil rgl bal ktl : List Json)
    (cpb : Bool) :
    ensure_profile_classification (.obj
      [("name", n), ("profile_type", pt), ("about", ab), ("usernames", .obj usl),
       ("bio", b), ("emails", .arr eml), ("primary_location", loc),
       ("posts", .arr psl), ("repositories", .arr rsl), ("activity_patterns", ap),
       ("possible_interests", .arr pil), ("relationship_graph", .arr rgl),
       ("behavioral_anomalies", .arr bal), ("key_timelines", .arr ktl),
       ("links", .obj lkl), ("compromised", .bool cpb), ("summary", sm),
       ("llm_analysis", la)]) =
    .obj
      [("name", n), ("profile_type", ecPT pt usl rsl), ("about", ecAB n pt ab usl rsl),
       ("usernames", .obj usl),
       ("bio", b), ("emails", .arr eml), ("primary_location", loc),
       ("posts", .arr psl), ("repositories", .arr rsl), ("activity_patterns", ap),
       ("possible_interests", .arr pil), ("relationship_graph", .arr rgl),
       ("behavioral_anomalies", .arr bal), ("key_timelines", .arr ktl),
       ("links", .obj lkl), ("compromised", .bool cpb), ("summary", sm),
       ("llm_analysis", la)] := by
  simp only [ensure_profile_classification, ecPT, ecAB, jget, jfind, jset]
  simp [jgetV]

/-- The coercion function in its classified-fields normal form. -/
theorem coerce_eq_C (x : Json) :
    coerce_profile_schema x = .obj (coerceFieldsC (srcOf x)) := by
  unfold coerce_profile_schema coerceFields
  rw [ensure_on_canonical]
  simp [coerceFieldsC]

theorem coerce_scalar_nullOrStr (o : Option Json) : isNullOrStr (coerce_scalar o) = true := by
  cases o <;> simp [coerce_scalar, isNullOrStr]

/-- The classified profile type slot is always a truthy string when the
stored slot was a coerced scalar (null or string). -/
theorem ecPT_truthy_of_nullOrStr (p : Json) (usl : List (String × Json)) (rsl : List Json)
    (hp : isNullOrStr p = true) :
    (ecPT p usl rsl).truthy = true ∧ isNullOrStr (ecPT p usl rsl) = true := by
  unfold ecPT
  split
  next h =>
    cases p with
    | null => simp [jgetV, truthyOpt] at h
    | str s =>
        simp only [jgetV, Option.getD_some]
        simp only [jgetV, truthyOpt] at h
        exact ⟨h, rfl⟩
    | bool b => simp [isNullOrStr] at hp
    | num n => simp [isNullOrStr] at hp
    | arr l => simp [isNullOrStr] at hp
    | obj l => simp [isNullOrStr] at hp
  next h =>
    refine ⟨?_, rfl⟩
    simp only [Json.truthy]
    split
    · rfl
    split
    · rfl
    split
    · rfl
    split
    · rfl
    rfl

/-- The classified `about` slot is null-or-string whenever the stored
slot was. -/
theorem ecAB_nullOrStr (n pt ab : Json) (usl : List (String × Json)) (rsl : List Json)
    (hab : isNullOrStr ab = true) :
    isNullOrStr (ecAB n pt ab usl rsl) = true := by
  unfold ecAB
  split
  next h =>
    cases ab with
    | null => simp [jgetV, truthyOpt] at h
    | str s => rfl
    | bool b => simp [isNullOrStr] at hab
    | num n2 => simp [isNullOrStr] at hab
    | arr l => simp [isNullOrStr] at hab
    | obj l => simp [isNullOrStr] at hab
  next h => rfl

/-- Every normalised username entry has exactly the
`handle`/`url`/`bio` shape. -/
theorem normalize_entry_shape (e : Json) :
    isNormalizedUserEntry (normalize_username_entry e) = true := by
  cases e <;> simp [normalize_username_entry, isNormalizedUserEntry]

/-- The coerced profile always carries exactly the canonical key list
(shared by the schema-totality and deep-clean-metadata theorems). -/
theorem coerce_keys (x : Json) : jsonKeys (coerce_profile_schema x) = CANONICAL_KEYS := by
  rw [coerce_eq_C]
  simp [jsonKeys, coerceFieldsC, CANONICAL_KEYS]

/-- C1: for every JSON-serializable input x, `_coerce_profile_schema(x)`
returns a dict whose key set is exactly the 18 canonical Profile keys,
with list-typed fields bound to lists (string lists where the source
stringifies elements), `usernames`/`links` bound to dicts (every
`usernames` value in normalised `handle`/`url`/`bio` shape), `compromised`
bound to a bool, and the scalar fields bound to a string or null; the
embedding is a total function, matching the no-exception contract. -/
theorem coerce_schema_totality (x : Json) :
    jsonKeys (coerce_profile_schema x) = CANONICAL_KEYS ∧
    isNullOrStr (getFieldRaw (coerce_profile_schema x) "name") = true ∧
    isNullOrStr (getFieldRaw (coerce_profile_schema x) "profile_type") = true ∧
    isNullOrStr (getFieldRaw (coerce_profile_schema x) "about") = true ∧
    isNullOrStr (getFieldRaw (coerce_profile_schema x) "bio") = true ∧
    isNullOrStr (getFieldRaw (coerce_profile_schema x) "primary_location") = true ∧
    isNullOrStr (getFieldRaw (coerce_profile_schema x) "activity_patterns") = true ∧
    isNullOrStr (getFieldRaw (coerce_profile_schema x) "summary") = true ∧
    isNullOrStr (getFieldRaw (coerce_profile_schema x) "llm_analysis") = true ∧
    isObjJ (getFieldRaw (coerce_profile_schema x) "usernames") = true ∧
    isObjJ (getFieldRaw (coerce_profile_schema x) "links") = true ∧
    isArrOfStr (getFieldRaw (coerce_profile_schema x) "emails") = true ∧
    isArrOfStr (getFieldRaw (coerce_profile_schema x) "possible_interests") = true ∧
    isArrOfStr (getFieldRaw (coerce_profile_schema x) "behavioral_anomalies") = true ∧
    isArrOfStr (getFieldRaw (coerce_profile_schema x) "key_timelines") = true ∧
    isArrJ (getFieldRaw (coerce_profile_schema x) "posts") = true ∧
    isArrJ (getFieldRaw (coerce_profile_schema x) "repositories") = true ∧
    isArrJ (getFieldRaw (coerce_profile_schema x) "relationship_graph") = true ∧
    isBool (getFieldRaw (coerce_profile_schema x) "compromised") = true ∧
    usernamesNormalized (coerce_profile_schema x) = true := by
  rw [coerce_eq_C]
  refine ⟨by simp [jsonKeys, coerceFieldsC, CANONICAL_KEYS], ?_⟩
  simp only [getFieldRaw, usernamesNormalized, coerceFieldsC, jfind]
  simp only [isArrOfStr, isArrJ, isObjJ, isBool]
  refine ⟨coerce_scalar_nullOrStr _, ?_, ?_, coerce_scalar_nullOrStr _,
    coerce_scalar_nullOrStr _, coerce_scalar_nullOrStr _, coerce_scalar_nullOrStr _,
    coerce_scalar_nullOrStr _, ?_⟩
  · exact (ecPT_truthy_of_nullOrStr _ _ _ (coerce_scalar_nullOrStr _)).2
  · exact ecAB_nullOrStr _ _ _ _ _ (coerce_scalar_nullOrStr _)
  · simp [normalize_entry_shape, List.all_eq_true]

theorem jgetV_getD (v : Json) : (jgetV v).getD .null = v := by cases v <;> rfl

theorem jgetV_truthy (v : Json) : truthyOpt (jgetV v) = v.truthy := by cases v <;> rfl

theorem ecPT_of_truthy (v : Json) (usl : List (String × Json)) (rsl : List Json)
    (hv : v.truthy = true) : ecPT v usl rsl = v := by
  unfold ecPT
  rw [jgetV_truthy, if_pos hv, jgetV_getD]

theorem ecAB_of_truthy (n pt ab : Json) (usl : List (String × Json)) (rsl : List Json)
    (hab : ab.truthy = true) : ecAB n pt ab usl rsl = ab := by
  unfold ecAB
  rw [jgetV_truthy, if_pos hab, jgetV_getD]

theorem ecAB_isStr (n pt ab : Json) (usl : List (String × Json)) (rsl : List Json)
    (hab : isNullOrStr ab = true) : ∃ t, ecAB n pt ab usl rsl = .str t := by
  unfold ecAB
  rw [jgetV_truthy]
  split
  next h =>
    cases ab with
    | null => simp [Json.truthy] at h
    | str s => exact ⟨s, jgetV_getD _⟩
    | bool b => simp [isNullOrStr] at hab
    | num m => simp [isNullOrStr] at hab
    | arr l => simp [isNullOrStr] at hab
    | obj l => simp [isNullOrStr] at hab
  next h => exact ⟨_, rfl⟩

theorem coerce_scalar_jgetV (v : Json) (hv : isNullOrStr v = true) :
    coerce_scalar (jgetV v) = v := by
  cases v with
  | null => rfl
  | str s => rfl
  | bool b => simp [isNullOrStr] at hv
  | num m => simp [isNullOrStr] at hv
  | arr l => simp [isNullOrStr] at hv
  | obj l => simp [isNullOrStr] at hv

theorem ecAB_stable (n pt ab : Json) (usl : List (String × Json)) (rsl : List Json)
    (hpt : (ecPT pt usl rsl).truthy = true) (hab : isNullOrStr ab = true) :
    ecAB n (ecPT pt usl rsl) (ecAB n pt ab usl rsl) usl rsl = ecAB n pt ab usl rsl := by
  by_cases hA : (ecAB n pt ab usl rsl).truthy = true
  · exact ecAB_of_truthy _ _ _ _ _ hA
  · obtain ⟨t, ht⟩ := ecAB_isStr n pt ab usl rsl hab
    have hPT : ecPT (ecPT pt usl rsl) usl rsl = ecPT pt usl rsl :=
      ecPT_of_truthy _ _ _ hpt
    rw [ht] at hA ⊢
    have hts : Json.truthy (.str t) = false := by
      cases h2 : Json.truthy (.str t)
      · rfl
      · exact absurd h2 hA
    conv_lhs => unfold ecAB
    rw [jgetV_truthy, if_neg (by rw [hts]; simp)]
    rw [hPT]
    -- the recomputed template equals the one that produced `t`
    have : ecAB n pt ab usl rsl = .str t := ht
    unfold ecAB at this
    rw [jgetV_truthy] at this
    by_cases h1 : ab.truthy = true
    · rw [if_pos h1, jgetV_getD] at this
      subst this
      exact absurd h1 (by rw [hts]; simp)
    · rw [if_neg h1] at this
      exact this

theorem normalize_output_shape (e : Json) :
    ∃ h0 u b, normalize_username_entry e = .obj [("handle", h0), ("url", u), ("bio", b)] := by
  cases e <;> exact ⟨_, _, _, rfl⟩

theorem jgetV_null : jgetV .null = none := rfl

theorem normalize_shape_fixed (h0 u b : Json) (hh : h0 = .null ∨ h0.truthy = true) :
    normalize_username_entry (.obj [("handle", h0), ("url", u), ("bio", b)]) =
    .obj [("handle", h0), ("url", u), ("bio", b)] := by
  rcases hh with hh | hh
  · subst hh
    simp [normalize_username_entry, jget, jfind, jgetV_null, jgetV_getD]
  · have h0n : jgetV h0 = some h0 := by
      cases h0 <;> first | rfl | (simp [Json.truthy] at hh)
    simp [normalize_username_entry, jget, jfind, h0n, hh, jgetV_getD]

theorem normalize_rt (e : Json) (h : handleOk (normalize_username_entry e) = true) :
    normalize_username_entry (normalize_username_entry e) = normalize_username_entry e := by
  obtain ⟨h0, u, b, hs⟩ := normalize_output_shape e
  rw [hs] at h ⊢
  apply normalize_shape_fixed
  simp only [handleOk, jfind, reduceIte] at h
  cases h0 with
  | null => exact Or.inl rfl
  | bool b2 => exact Or.inr h
  | num m => exact Or.inr h
  | str s => exact Or.inr h
  | arr l => exact Or.inr h
  | obj l => exact Or.inr h

theorem norm_map_rt (l0 : List (String × Json))
    (h : (l0.map (fun kv => (kv.1, normalize_username_entry kv.2))).all
          (fun kv => handleOk kv.2) = true) :
    (l0.map (fun kv => (kv.1, normalize_username_entry kv.2))).map
      (fun kv => (kv.1, normalize_username_entry kv.2)) =
    l0.map (fun kv => (kv.1, normalize_username_entry kv.2)) := by
  induction l0 with
  | nil => rfl
  | cons kv rest ih =>
      simp only [List.map_cons, List.all_cons, Bool.and_eq_true] at h ⊢
      rw [normalize_rt kv.2 h.1, ih h.2]

theorem strmap_rt : ∀ l : List Json,
    (l.map (fun x => Json.str (pyStr x))).map (fun x => Json.str (pyStr x)) =
    l.map (fun x => Json.str (pyStr x))
  | [] => rfl
  | x :: xs => by simp [strmap_rt xs, pyStr]

theorem coerce_compromised_bool (b : Bool) :
    coerce_compromised (jgetV (.bool b)) = b := by cases b <;> rfl

theorem srcOf_canonical (s : List (String × Json)) :
    srcOf (.obj (coerceFieldsC s)) = coerceFieldsC s := by
  simp [srcOf, coerceFieldsC, jfind]

theorem coerce_scalar_rt (o : Option Json) :
    coerce_scalar (jgetV (coerce_scalar o)) = coerce_scalar o := by
  cases o <;> rfl

theorem coerce_dict_jgetV_obj (l : List (String × Json)) :
    coerce_dict (jgetV (.obj l)) = l := rfl

theorem normalize_list_jgetV_arr (l : List Json) :
    normalize_list (jgetV (.arr l)) = l := rfl

theorem ecPT_idem_c (o : Option Json) (usl : List (String × Json)) (rsl : List Json) :
    ecPT (ecPT (coerce_scalar o) usl rsl) usl rsl = ecPT (coerce_scalar o) usl rsl :=
  ecPT_of_truthy _ _ _ (ecPT_truthy_of_nullOrStr (coerce_scalar o) usl rsl (coerce_scalar_nullOrStr o)).1

theorem coerce_scalar_jgetV_ecPT (o : Option Json) (usl : List (String × Json)) (rsl : List Json) :
    coerce_scalar (jgetV (ecPT (coerce_scalar o) usl rsl)) = ecPT (coerce_scalar o) usl rsl :=
  coerce_scalar_jgetV _ (ecPT_truthy_of_nullOrStr (coerce_scalar o) usl rsl (coerce_scalar_nullOrStr o)).2

theorem coerce_scalar_jgetV_ecAB (n pt : Json) (o : Option Json) (usl : List (String × Json)) (rsl : List Json) :
    coerce_scalar (jgetV (ecAB n pt (coerce_scalar o) usl rsl)) = ecAB n pt (coerce_scalar o) usl rsl := by
  obtain ⟨t, ht⟩ := ecAB_isStr n pt (coerce_scalar o) usl rsl (coerce_scalar_nullOrStr o)
  rw [ht]
  rfl

theorem ecAB_stable_c (n : Json) (o o2 : Option Json) (usl : List (String × Json)) (rsl : List Json) :
    ecAB n (ecPT (coerce_scalar o) usl rsl) (ecAB n (coerce_scalar o) (coerce_scalar o2) usl rsl) usl rsl =
    ecAB n (coerce_scalar o) (coerce_scalar o2) usl rsl :=
  ecAB_stable n (coerce_scalar o) (coerce_scalar o2) usl rsl
    (ecPT_truthy_of_nullOrStr (coerce_scalar o) usl rsl (coerce_scalar_nullOrStr o)).1
    (coerce_scalar_nullOrStr o2)

theorem coerceFieldsC_unfold (Y : List (String × Json)) :
    coerceFieldsC Y =
    [("name", coerce_scalar (jget Y "name")),
     ("profile_type", ecPT (coerce_scalar (jget Y "profile_type"))
        ((coerce_dict (jget Y "usernames")).map (fun kv => (kv.1, normalize_username_entry kv.2)))
        (normalize_list (jget Y "repositories"))),
     ("about", ecAB (coerce_scalar (jget Y "name")) (coerce_scalar (jget Y "profile_type"))
        (coerce_scalar (jget Y "about"))
        ((coerce_dict (jget Y "usernames")).map (fun kv => (kv.1, normalize_username_entry kv.2)))
        (normalize_list (jget Y "repositories"))),
     ("usernames", .obj ((coerce_dict (jget Y "usernames")).map
        (fun kv => (kv.1, normalize_username_entry kv.2)))),
     ("bio", coerce_scalar (jget Y "bio")),
     ("emails", .arr ((normalize_list (jget Y "emails")).map
         (fun x => .str (pyStr x)))),
     ("primary_location", coerce_scalar (jget Y "primary_location")),
     ("posts", .arr (normalize_list (jget Y "posts"))),
     ("repositories", .arr (normalize_list (jget Y "repositories"))),
     ("activity_patterns", coerce_scalar (jget Y "activity_patterns")),
     ("possible_interests", .arr ((normalize_list (jget Y "possible_interests")).map
         (fun x => .str (pyStr x)))),
     ("relationship_graph", .arr (normalize_list (jget Y "relationship_graph"))),
     ("behavioral_anomalies", .arr ((normalize_list (jget Y "behavioral_anomalies")).map
         (fun x => .str (pyStr x)))),
     ("key_timelines", .arr ((normalize_list (jget Y "key_timelines")).map
         (fun x => .str (pyStr x)))),
     ("links", .obj (coerce_dict (jget Y "links"))),
     ("compromised", .bool (coerce_compromised (jget Y "compromised"))),
     ("summary", coerce_scalar (jget Y "summary")),
     ("llm_analysis", coerce_scalar (jget Y "llm_analysis"))] := rfl

theorem jget_coerceFieldsC (s : List (String × Json)) :
    jget (coerceFieldsC s) "name" = jgetV (coerce_scalar (jget s "name")) ∧
    jget (coerceFieldsC s) "profile_type" = jgetV (ecPT (coerce_scalar (jget s "profile_type"))
        ((coerce_dict (jget s "usernames")).map (fun kv => (kv.1, normalize_username_entry kv.2)))
        (normalize_list (jget s "repositories"))) ∧
    jget (coerceFieldsC s) "about" = jgetV (ecAB (coerce_scalar (jget s "name"))
        (coerce_scalar (jget s "profile_type")) (coerce_scalar (jget s "about"))
        ((coerce_dict (jget s "usernames")).map (fun kv => (kv.1, normalize_username_entry kv.2)))
        (normalize_list (jget s "repositories"))) ∧
    jget (coerceFieldsC s) "usernames" = jgetV (.obj ((coerce_dict (jget s "usernames")).map
        (fun kv => (kv.1, normalize_username_entry kv.2)))) ∧
    jget (coerceFieldsC s) "bio" = jgetV (coerce_scalar (jget s "bio")) ∧
    jget (coerceFieldsC s) "emails" = jgetV (.arr ((normalize_list (jget s "emails")).map
        (fun x => .str (pyStr x)))) ∧
    jget (coerceFieldsC s) "primary_location" = jgetV (coerce_scalar (jget s "primary_location")) ∧
    jget (coerceFieldsC s) "posts" = jgetV (.arr (normalize_list (jget s "posts"))) ∧
    jget (coerceFieldsC s) "repositories" = jgetV (.arr (normalize_list (jget s "repositories"))) ∧
    jget (coerceFieldsC s) "activity_patterns" = jgetV (coerce_scalar (jget s "activity_patterns")) ∧
    jget (coerceFieldsC s) "possible_interests" = jgetV (.arr ((normalize_list (jget s "possible_interests")).map
        (fun x => .str (pyStr x)))) ∧
    jget (coerceFieldsC s) "relationship_graph" = jgetV (.arr (normalize_list (jget s "relationship_graph"))) ∧
    jget (coerceFieldsC s) "behavioral_anomalies" = jgetV (.arr ((normalize_list (jget s "behavioral_anomalies")).map
        (fun x => .str (pyStr x)))) ∧
    jget (coerceFieldsC s) "key_timelines" = jgetV (.arr ((normalize_list (jget s "key_timelines")).map
        (fun x => .str (pyStr x)))) ∧
    jget (coerceFieldsC s) "links" = jgetV (.obj (coerce_dict (jget s "links"))) ∧
    jget (coerceFieldsC s) "compromised" = jgetV (.bool (coerce_compromised (jget s "compromised"))) ∧
    jget (coerceFieldsC s) "summary" = jgetV (coerce_scalar (jget s "summary")) ∧
    jget (coerceFieldsC s) "llm_analysis" = jgetV (coerce_scalar (jget s "llm_analysis")) := by
  rw [coerceFieldsC_unfold]
  refine ⟨?_, ?_, ?_, ?_, ?_, ?_, ?_, ?_, ?_, ?_, ?_, ?_, ?_, ?_, ?_, ?_, ?_, ?_⟩ <;>
    simp [jget, jfind]

theorem coerceFieldsC_roundtrip (s : List (String × Json))
    (h : ((coerce_dict (jget s "usernames")).map
            (fun kv => (kv.1, normalize_username_entry kv.2))).all
          (fun kv => handleOk kv.2) = true) :
    coerceFieldsC (coerceFieldsC s) = coerceFieldsC s := by
  obtain ⟨h1, h2, h3, h4, h5, h6, h7, h8, h9, h10, h11, h12, h13, h14, h15, h16, h17, h18⟩ :=
    jget_coerceFieldsC s
  rw [coerceFieldsC_unfold (coerceFieldsC s)]
  rw [h1, h2, h3, h4, h5, h6, h7, h8, h9, h10, h11, h12, h13, h14, h15, h16, h17, h18]
  rw [coerce_dict_jgetV_obj, norm_map_rt _ h]
  simp only [coerce_scalar_rt, strmap_rt, coerce_scalar_jgetV_ecPT,
    coerce_scalar_jgetV_ecAB, ecPT_idem_c, ecAB_stable_c, coerce_compromised_bool,
    normalize_list_jgetV_arr, coerce_dict_jgetV_obj]
  rw [← coerceFieldsC_unfold s]

/-- C2 (amended): coercion is idempotent on every input whose coerced
`usernames` map carries only null-or-truthy handles; a falsy non-null
handle (for instance the empty string produced from
`\x7b"usernames": \x7b"p": ""\x7d\x7d`) is collapsed to null by the second
application, so the claimed unconditional fixed point fails only there. -/
theorem coerce_idempotent_handles_ok (x : Json)
    (h : usernames_handles_ok (coerce_profile_schema x) = true) :
    coerce_profile_schema (coerce_profile_schema x) = coerce_profile_schema x := by
  rw [coerce_eq_C x] at h ⊢
  rw [coerce_eq_C (.obj (coerceFieldsC (srcOf x))), srcOf_canonical]
  congr 1
  apply coerceFieldsC_roundtrip
  rw [coerceFieldsC_unfold] at h
  simpa [usernames_handles_ok, getFieldRaw, jfind] using h

/-- C2 counterexample: coercing `\x7b"usernames": \x7b"p": ""\x7d\x7d` yields an
empty-string handle, and coercing the result again turns that handle
into null, so `coerce (coerce x)` differs from `coerce x`. -/
theorem coerce_not_idempotent_cex :
    handleOf (coerce_profile_schema c2_cex) "p" = .str "" ∧
    handleOf (coerce_profile_schema (coerce_profile_schema c2_cex)) "p" = .null ∧
    coerce_profile_schema (coerce_profile_schema c2_cex) ≠ coerce_profile_schema c2_cex := by
  refine ⟨by decide, by decide, ?_⟩
  intro heq
  have h1 : handleOf (coerce_profile_schema c2_cex) "p" = .str "" := by decide
  have h2 : handleOf (coerce_profile_schema (coerce_profile_schema c2_cex)) "p" = .null := by
    decide
  rw [heq, h1] at h2
  exact absurd h2 (by decide)

/-- Witness for the amended idempotence theorem at the concrete input
`\x7b\x7d`. -/
theorem coerce_idempotent_handles_ok_witness :
    usernames_handles_ok (coerce_profile_schema (.obj [])) = true ∧
    coerce_profile_schema (coerce_profile_schema (.obj [])) = coerce_profile_schema (.obj []) :=
  ⟨by decide, coerce_idempotent_handles_ok _ (by decide)⟩

/-- C10: `derive_risk` can reach "critical" only for compromised
profiles — whenever the stored `compromised` field is falsy, the level
is "low" or "medium" for every possible counts row, never "high" or
"critical" (maximum attainable score 15 + 10 + 5 = 30). -/
theorem derive_risk_no_compromise (profile : Json) (counts : Counts)
    (h : truthyOpt (jgetD profile "compromised") = false) :
    (derive_risk profile counts).level = "low" ∨
    (derive_risk profile counts).level = "medium" := by
  unfold derive_risk
  rw [h]
  by_cases h2 : (extract_usernames profile).length ≥ 3 <;>
    by_cases h3 : counts.repos ≥ 10 <;>
    by_cases h4 : counts.total_stars ≥ 50 <;>
    simp [h2, h3, h4]

/-- Witness for the risk-cap theorem at a concrete empty profile. -/
theorem derive_risk_no_compromise_witness :
    truthyOpt (jgetD (Json.obj []) "compromised") = false ∧
    ((derive_risk (.obj []) ⟨0, 0, 0, 0, 0⟩).level = "low" ∨
     (derive_risk (.obj []) ⟨0, 0, 0, 0, 0⟩).level = "medium") :=
  ⟨by decide, derive_risk_no_compromise _ _ (by decide)⟩

/-- C8: in self mode, a custom prompt containing no OSINT keyword is
rejected with the structured error before backend selection (the
rejection is the early return of line 1842, ahead of `choose_backend`
at line 1848 and of any model call), and a prompt containing at least
one keyword passes this guard. -/
theorem self_mode_guard :
    (∀ osint cp, is_osint_prompt cp = false →
      run_correlation_guard "self" osint cp =
        .rejected "Invalid custom prompt. For self mode, provide an OSINT-related instruction.") ∧
    (∀ osint cp, is_osint_prompt cp = true →
      ∃ p, run_correlation_guard "self" osint cp = .proceed p) := by
  constructor
  · intro osint cp h
    simp [run_correlation_guard, build_prompt, h]
  · intro osint cp h
    have hne : cp.isEmpty = false := by
      cases he : cp.isEmpty
      · rfl
      · rw [is_osint_prompt, if_pos he] at h
        exact absurd h (by simp)
    simp [run_correlation_guard, build_prompt, h, hne]

/-- Witness: "tell me a joke" is rejected, an OSINT-keyword prompt is
not. -/
theorem self_mode_guard_witness :
    is_osint_prompt "tell me a joke" = false ∧
    run_correlation_guard "self" "[]" "tell me a joke" =
      .rejected "Invalid custom prompt. For self mode, provide an OSINT-related instruction." ∧
    is_osint_prompt "run an osint correlation" = true ∧
    ∃ p, run_correlation_guard "self" "[]" "run an osint correlation" = .proceed p :=
  ⟨by decide, self_mode_guard.1 "[]" _ (by decide), by decide,
   self_mode_guard.2 "[]" _ (by decide)⟩

/-- C9 (amended): `run_deep_clean_correlation` attaches the
`_deep_clean_meta` block and then runs the Schema Normalizer, which
rebuilds the dict from the canonical keys only — so the returned result
never contains the metadata block, for any cleaned records, identifier
and metadata content. -/
theorem deep_clean_meta_dropped (cleaned : List Json) (ident : String) (meta : Json) :
    jsonKeys (deep_clean_finalize cleaned ident meta) = CANONICAL_KEYS ∧
    jhasKeyJ (deep_clean_finalize cleaned ident meta) "_deep_clean_meta" = false := by
  constructor
  · unfold deep_clean_finalize
    exact coerce_keys _
  · unfold deep_clean_finalize
    rw [coerce_eq_C]
    simp [jhasKeyJ, jhasKey, coerceFieldsC, jfind]

/-- C9 counterexample: on a concrete one-platform deep clean the final
result has no `_deep_clean_meta` key, although the block was attached
before coercion. -/
theorem deep_clean_meta_dropped_cex :
    jhasKeyJ (deep_clean_finalize [c9_cd_github] "u" (.obj [("mode", .str "deep_clean")]))
      "_deep_clean_meta" = false := by decide

/-- C7: on the GitHub + BreachDirectory scenario the rule-based profile
has `usernames.github.handle = "alice"`, the single repository entry
`name = "x"`, `stars = 60` (with `forks` null, since the raw repo has no
`forks_count`), and `compromised = true`; but `compute_counts` on the
stored profile raises a TypeError while summing the null `forks`
values, so the report pipeline never reaches `derive_risk` — with the
intended counts (1 repository, 60 stars) `derive_risk` does score
50 + 5 = 55 and returns level "high". -/
theorem c7_scenario :
    handleOf c7_profile "github" = .str "alice" ∧
    getFieldRaw c7_profile "repositories" =
      .arr [.obj [("name", .str "x"), ("url", .null), ("description", .null),
                  ("stars", .num 60), ("forks", .null), ("last_updated", .null)]] ∧
    getFieldRaw c7_profile "compromised" = .bool true ∧
    compute_counts c7_stored = .error "TypeError: unsupported operand type for +: forks" ∧
    derive_risk c7_stored ⟨1, 1, 60, 0, 0⟩ =
      ⟨"high", "Compromise detected | Popular repositories"⟩ := by
  exact ⟨by decide, by decide, by decide, rfl, by decide⟩

/-- C3 counterexample: rule-based correlation applies no deduplication —
two Reddit posts with the identical title "T" both appear in the output
`posts` sequence, not only the first occurrence. -/
theorem rule_based_no_dedup_cex :
    postsOf (rule_based_correlation (.arr [c3_reddit_doc]) "u") =
      [.obj [("platform", .str "Reddit"), ("title", .str "T"), ("url", .null),
             ("date", .null),
             ("metrics", .obj [("upvotes", .null), ("downvotes", .null)])],
       .obj [("platform", .str "Reddit"), ("title", .str "T"), ("url", .null),
             ("date", .null),
             ("metrics", .obj [("upvotes", .null), ("downvotes", .null)])]] := by
  decide

/-- C4 counterexample: with candidate names "Al" (GitHub, processed
first) and the longer "Alice Wonderland" (Twitter), rule-based
correlation keeps the first discovered name, not the longest. -/
theorem rule_based_not_longest_cex :
    nameOf (rule_based_correlation (.arr [c4_github_doc, c4_twitter_doc]) "") = .str "Al" := by
  decide

theorem dedup_go_spec : ∀ (l seen : List Json) (p : Json), p ∈ dedup_posts_go seen l →
    (postTitle p).truthy = true ∧
    seen.any (fun t => Json.beq t (postTitle p)) = false ∧
    (l.filter (fun q => Json.beq (postTitle q) (postTitle p))).head? = some p := by
  intro l
  induction l with
  | nil => intro seen p hp; simp [dedup_posts_go] at hp
  | cons q l2 ih =>
      intro seen p hp
      simp only [dedup_posts_go] at hp
      split at hp
      next hcond =>
        rcases List.mem_cons.1 hp with rfl | hp2
        · refine ⟨hcond.1, ?_, ?_⟩
          · cases hA : seen.any (fun t => Json.beq t (postTitle p))
            · rfl
            · exact absurd hA hcond.2
          · rw [List.filter_cons, if_pos (by simp [Json.beq_refl])]
            rfl
        · obtain ⟨ht, hs, hf⟩ := ih (postTitle q :: seen) p hp2
          simp only [List.any_cons, Bool.or_eq_false_iff] at hs
          refine ⟨ht, hs.2, ?_⟩
          rw [List.filter_cons, if_neg (by simp [hs.1])]
          exact hf
      next hcond =>
        obtain ⟨ht, hs, hf⟩ := ih seen p hp
        refine ⟨ht, hs, ?_⟩
        have hne : Json.beq (postTitle q) (postTitle p) = false := by
          cases hb : Json.beq (postTitle q) (postTitle p)
          · rfl
          · exfalso
            have heq := (Json.beq_iff _ _).1 hb
            apply hcond
            rw [heq]
            exact ⟨ht, by simp [hs]⟩
        rw [List.filter_cons, if_neg (by simp [hne])]
        exact hf

theorem dedup_go_pairwise : ∀ (l seen : List Json),
    List.Pairwise (fun a b => postTitle a ≠ postTitle b) (dedup_posts_go seen l) := by
  intro l
  induction l with
  | nil => intro seen; simp [dedup_posts_go]
  | cons q l2 ih =>
      intro seen
      simp only [dedup_posts_go]
      split
      next hcond =>
        constructor
        · intro b hb
          obtain ⟨_, hs, _⟩ := dedup_go_spec l2 (postTitle q :: seen) b hb
          simp only [List.any_cons, Bool.or_eq_false_iff] at hs
          intro hEq
          have hb1 := hs.1
          rw [hEq] at hb1
          rw [Json.beq_refl] at hb1
          exact Bool.true_eq_false.mp hb1
        · exact ih _
      next => exact ih seen

/-- C3 (amended): only the cleaned-data correlator deduplicates posts —
its output is the first 50 of the title-deduplicated aggregate, any two
output posts have different titles, and every retained post is the
first aggregated post bearing its title; the rule-based correlator
copies the aggregated posts without deduplication (see the
counterexample). -/
theorem cleaned_dedup_first_occurrence (cleaned : List Json) (ident : String) :
    postsOf (correlate_cleaned_data cleaned ident) =
      (dedup_posts_by_title (cd_agg_posts cleaned)).take 50 ∧
    List.Pairwise (fun a b => postTitle a ≠ postTitle b)
      (postsOf (correlate_cleaned_data cleaned ident)) ∧
    ∀ p ∈ postsOf (correlate_cleaned_data cleaned ident),
      ((cd_agg_posts cleaned).filter (fun q => Json.beq (postTitle q) (postTitle p))).head? =
        some p := by
  have hposts : postsOf (correlate_cleaned_data cleaned ident) =
      (dedup_posts_by_title (cd_agg_posts cleaned)).take 50 := by
    simp [correlate_cleaned_data, postsOf, getFieldRaw, jfind, cd_agg_posts]
  refine ⟨hposts, ?_, ?_⟩
  · rw [hposts]
    exact List.Pairwise.sublist (List.take_sublist _ _) (dedup_go_pairwise _ _)
  · intro p hp
    rw [hposts] at hp
    have hp2 : p ∈ dedup_posts_by_title (cd_agg_posts cleaned) :=
      (List.take_sublist _ _).mem hp
    exact (dedup_go_spec _ [] p hp2).2.2

theorem foldl_pick_mem : ∀ (xs : List Json) (best : Json),
    xs.foldl (fun b c => if pyLen c > pyLen b then c else b) best = best ∨
    xs.foldl (fun b c => if pyLen c > pyLen b then c else b) best ∈ xs := by
  intro xs
  induction xs with
  | nil => intro best; exact Or.inl rfl
  | cons x xs ih =>
      intro best
      simp only [List.foldl_cons]
      rcases ih (if pyLen x > pyLen best then x else best) with h | h
      · rw [h]
        by_cases hx : pyLen x > pyLen best
        · rw [if_pos hx]; exact Or.inr (List.mem_cons_self _ _)
        · rw [if_neg hx]; exact Or.inl rfl
      · exact Or.inr (List.mem_cons_of_mem _ h)

theorem foldl_pick_ge_init : ∀ (xs : List Json) (best : Json),
    pyLen best ≤ pyLen (xs.foldl (fun b c => if pyLen c > pyLen b then c else b) best) := by
  intro xs
  induction xs with
  | nil => intro best; exact le_refl _
  | cons x xs ih =>
      intro best
      simp only [List.foldl_cons]
      refine le_trans ?_ (ih _)
      by_cases hx : pyLen x > pyLen best
      · rw [if_pos hx]; exact le_of_lt hx
      · rw [if_neg hx]

theorem foldl_pick_ge_mem : ∀ (xs : List Json) (best n : Json), n ∈ xs →
    pyLen n ≤ pyLen (xs.foldl (fun b c => if pyLen c > pyLen b then c else b) best) := by
  intro xs
  induction xs with
  | nil => intro best n hn; simp at hn
  | cons x xs ih =>
      intro best n hn
      simp only [List.foldl_cons]
      rcases List.mem_cons.1 hn with rfl | hn2
      · refine le_trans ?_ (foldl_pick_ge_init xs _)
        by_cases hx : pyLen n > pyLen best
        · rw [if_pos hx]
        · rw [if_neg hx]; omega
      · exact ih _ n hn2

theorem pyMaxByLen_mem (l : List Json) (h : l ≠ []) : pyMaxByLen l ∈ l := by
  match l with
  | [] => exact absurd rfl h
  | x :: xs =>
      rcases foldl_pick_mem xs x with h2 | h2
      · rw [pyMaxByLen, h2]; exact List.mem_cons_self _ _
      · exact List.mem_cons_of_mem _ h2

theorem pyMaxByLen_ge (l : List Json) (n : Json) (hn : n ∈ l) :
    pyLen n ≤ pyLen (pyMaxByLen l) := by
  match l with
  | [] => simp at hn
  | x :: xs =>
      rcases List.mem_cons.1 hn with rfl | hn2
      · exact foldl_pick_ge_init xs n
      · exact foldl_pick_ge_mem xs x n hn2

/-- C4 (amended): only the cleaned-data correlator sets `name` to the
longest candidate name — specifically the first candidate of maximal
Python `len` (ties keep the earliest), which is a member of the
candidate list and bounds every candidate length.  The rule-based
correlator instead keeps the identifier, or the first discovered
candidate when the identifier is empty (see the counterexample). -/
theorem cleaned_longest_name (cleaned : List Json) (ident : String)
    (h : cd_agg_names cleaned ≠ []) :
    nameOf (correlate_cleaned_data cleaned ident) = pyMaxByLen (cd_agg_names cleaned) ∧
    pyMaxByLen (cd_agg_names cleaned) ∈ cd_agg_names cleaned ∧
    ∀ n ∈ cd_agg_names cleaned, pyLen n ≤ pyLen (pyMaxByLen (cd_agg_names cleaned)) := by
  refine ⟨?_, pyMaxByLen_mem _ h, fun n hn => pyMaxByLen_ge _ n hn⟩
  have hne : (cd_agg_names cleaned).isEmpty = false := by
    cases hx : cd_agg_names cleaned
    · exact absurd hx h
    · rfl
  simp [correlate_cleaned_data, nameOf, getFieldRaw, jfind, cd_agg_names, hne]
  intro hx
  exact absurd hx h

/-- Witness for the longest-name theorem on a one-record input. -/
theorem cleaned_longest_name_witness :
    cd_agg_names [c9_cd_github] ≠ [] ∧
    (nameOf (correlate_cleaned_data [c9_cd_github] "u") = pyMaxByLen (cd_agg_names [c9_cd_github]) ∧
     pyMaxByLen (cd_agg_names [c9_cd_github]) ∈ cd_agg_names [c9_cd_github] ∧
     ∀ n ∈ cd_agg_names [c9_cd_github], pyLen n ≤ pyLen (pyMaxByLen (cd_agg_names [c9_cd_github]))) :=
  ⟨by decide, cleaned_longest_name _ _ (by decide)⟩
/-- C5 (amended): in the remote multi-model loop, when model A fails
with a capacity/429-class error and model B responds but its text fails
the strict JSON parse, `run_correlation` returns the parse-error
diagnostic dict tagged `model_used = B` immediately — model C (and
anything after it) is never attempted, as the full event trace shows. -/
theorem parse_error_stops_fallback (call : String → Nat → CallOutcome) (A B C : String)
    (rest : List String) (ib : Bool) (mA raw cleaned : String)
    (hA : call A 1 = .exn mA) (hcap : isCapacityMsg mA = true)
    (hB : call B 1 = .ok raw cleaned none) :
    run_correlation_models call (A :: B :: C :: rest) ib =
      (.parseError raw cleaned B (if ib then some "openrouter" else none)
        (fallbackTag ib (some A) B),
       [.att A 1, .att B 1]) := by
  unfold run_correlation_models
  simp only [List.head?]
  rw [try_models_go]
  show (match attemptLoop call ib (some A) A MAX_RETRIES 1 INITIAL_BACKOFF none with
        | (.done r, tr) => (r, tr)
        | (.advance le, tr) =>
            let rest2 := try_models_go call ib (some A) (A :: B :: C :: rest) (B :: C :: rest) le
            (rest2.1, tr ++ rest2.2)) = _
  have hstepA : attemptLoop call ib (some A) A MAX_RETRIES 1 INITIAL_BACKOFF none =
      (.advance (some mA), [.att A 1]) := by
    show attemptLoop call ib (some A) A 3 1 INITIAL_BACKOFF none = _
    rw [attemptLoop.eq_def]
    simp only [hA, hcap, if_true]
  rw [hstepA]
  simp only []
  rw [try_models_go]
  have hstepB : attemptLoop call ib (some A) B MAX_RETRIES 1 INITIAL_BACKOFF (some mA) =
      (.done (.parseError raw cleaned B (if ib then some "openrouter" else none)
        (fallbackTag ib (some A) B)), [.att B 1]) := by
    show attemptLoop call ib (some A) B 3 1 INITIAL_BACKOFF (some mA) = _
    rw [attemptLoop.eq_def]
    simp only [hB]
  rw [hstepB]
  simp

/-- C5 counterexample: with A failing on a 429, B answering unparseable
text and C ready to answer valid JSON, the loop returns the B-tagged
parse error and never calls C — not C-tagged parsed output as claimed. -/
theorem run_correlation_c5_cex :
    run_correlation_models callC5 ["A", "B", "C"] true =
      (.parseError "not json" "not json" "B" (some "openrouter") (some "A"),
       [.att "A" 1, .att "B" 1]) := by rfl

/-- C6 (amended): a capacity-class error (any of "429", "rate limit",
"Rate limit", "overloaded", "capacity" as substrings — the code checks
this class first) abandons the model after a single attempt with no
sleep; an error that carries a transient token and no capacity token is
retried on the same model with sleeps of exactly 0.8 s then 1.6 s
(factor 2.0) for at most 3 attempts, after which the loop advances to
the next model.  The claim as stated is refuted by a message containing
both "503" and "capacity" (see the counterexample): capacity
classification wins, so no retry happens. -/
theorem transient_backoff_and_capacity_advance (call : String → Nat → CallOutcome)
    (M1 M2 : String) (rest : List String) (ib : Bool) (mc m1 m2 m3 : String)
    (h1 : call M1 1 = .exn mc) (hcap : isCapacityMsg mc = true)
    (h21 : call M2 1 = .exn m1) (h22 : call M2 2 = .exn m2) (h23 : call M2 3 = .exn m3)
    (ht1 : isTransientMsg m1 = true) (hc1 : isCapacityMsg m1 = false)
    (ht2 : isTransientMsg m2 = true) (hc2 : isCapacityMsg m2 = false) :
    run_correlation_models call (M1 :: M2 :: rest) ib =
      ((try_models_go call ib (some M1) (M1 :: M2 :: rest) rest (some m3)).1,
       [.att M1 1, .att M2 1, .sleep (0.8 : ℚ), .att M2 2, .sleep (1.6 : ℚ), .att M2 3]
         ++ (try_models_go call ib (some M1) (M1 :: M2 :: rest) rest (some m3)).2) := by
  have hstep1 : attemptLoop call ib (some M1) M1 MAX_RETRIES 1 INITIAL_BACKOFF none =
      (.advance (some mc), [.att M1 1]) := by
    show attemptLoop call ib (some M1) M1 3 1 INITIAL_BACKOFF none = _
    rw [attemptLoop.eq_def]
    simp only [h1, hcap, if_true]
  have hstep3 : attemptLoop call ib (some M1) M2 1 3
      (INITIAL_BACKOFF * BACKOFF_FACTOR * BACKOFF_FACTOR) (some m2) =
      (.advance (some m3), [.att M2 3]) := by
    rw [attemptLoop.eq_def]
    simp [h23, MAX_RETRIES]
  have hmid : attemptLoop call ib (some M1) M2 2 2 (INITIAL_BACKOFF * BACKOFF_FACTOR) (some m1) =
      (.advance (some m3), [.att M2 2, .sleep (1.6 : ℚ), .att M2 3]) := by
    rw [attemptLoop.eq_def]
    simp only [h22]
    rw [if_neg (by simp [hc2])]
    rw [if_pos (show isTransientMsg m2 = true ∧ 2 < MAX_RETRIES from ⟨ht2, by norm_num [MAX_RETRIES]⟩)]
    rw [hstep3]
    have hb : INITIAL_BACKOFF * BACKOFF_FACTOR = (1.6 : ℚ) := by
      norm_num [INITIAL_BACKOFF, BACKOFF_FACTOR]
    rw [hb]
  have hstep2 : attemptLoop call ib (some M1) M2 MAX_RETRIES 1 INITIAL_BACKOFF (some mc) =
      (.advance (some m3),
       [.att M2 1, .sleep (0.8 : ℚ), .att M2 2, .sleep (1.6 : ℚ), .att M2 3]) := by
    show attemptLoop call ib (some M1) M2 3 1 INITIAL_BACKOFF (some mc) = _
    rw [attemptLoop.eq_def]
    simp only [h21]
    rw [if_neg (by simp [hc1])]
    rw [if_pos (show isTransientMsg m1 = true ∧ 1 < MAX_RETRIES from ⟨ht1, by norm_num [MAX_RETRIES]⟩)]
    rw [hmid]
    have hb0 : INITIAL_BACKOFF = (0.8 : ℚ) := rfl
    rw [hb0]
  unfold run_correlation_models
  simp only [List.head?]
  rw [try_models_go, hstep1]
  simp only []
  rw [try_models_go, hstep2]
  simp

/-- C6 counterexample: the message "503 capacity" contains the claimed
transient token "503", yet the model is abandoned after one attempt
with no sleep, because the code classifies any message containing
"capacity" (or "Rate limit") as a capacity error first. -/
theorem run_correlation_c6_cex :
    run_correlation_models callC6 ["A", "B"] false =
      (.profileOk (coerce_profile_schema (.obj [])) none none none,
       [.att "A" 1, .att "B" 1]) := by rfl

/-- Witness for the C5 fallback theorem at the concrete oracle. -/
theorem parse_error_stops_fallback_witness :
    isCapacityMsg "Error code: 429" = true ∧
    run_correlation_models callC5 ["A", "B", "C"] true =
      (.parseError "not json" "not json" "B" (if (true : Bool) then some "openrouter" else none)
        (fallbackTag true (some "A") "B"),
       [.att "A" 1, .att "B" 1]) :=
  ⟨by decide,
   parse_error_stops_fallback callC5 "A" "B" "C" [] true "Error code: 429" "not json" "not json"
     rfl (by decide) rfl⟩

/-- Witness for the C6 backoff theorem at the concrete oracle. -/
theorem transient_backoff_and_capacity_advance_witness :
    isCapacityMsg "Error code: 429 rate limit" = true ∧
    isTransientMsg "503 Service Unavailable" = true ∧
    isCapacityMsg "503 Service Unavailable" = false ∧
    run_correlation_models callC6w ["A", "B", "C"] false =
      ((try_models_go callC6w false (some "A") ["A", "B", "C"] ["C"]
          (some "503 Service Unavailable")).1,
       [.att "A" 1, .att "B" 1, .sleep (0.8 : ℚ), .att "B" 2, .sleep (1.6 : ℚ), .att "B" 3]
         ++ (try_models_go callC6w false (some "A") ["A", "B", "C"] ["C"]
              (some "503 Service Unavailable")).2) :=
  ⟨by decide, by decide, by decide,
   transient_backoff_and_capacity_advance callC6w "A" "B" ["C"] false
     "Error code: 429 rate limit" "503 Service Unavailable" "503 Service Unavailable"
     "503 Service Unavailable" rfl (by decide) rfl rfl rfl
     (by decide) (by decide) (by decide) (by decide)⟩

/-- Witness for the cleaned-data deduplication theorem: on a concrete
two-duplicate input the retained post is a member of the output and is
the first aggregated post with its title. -/
theorem cleaned_dedup_first_occurrence_witness :
    c3_cd_post ∈ postsOf (correlate_cleaned_data [c3_cd_reddit] "u") ∧
    ((cd_agg_posts [c3_cd_reddit]).filter
        (fun q => Json.beq (postTitle q) (postTitle c3_cd_post))).head? = some c3_cd_post :=
  ⟨by decide,
   (cleaned_dedup_first_occurrence [c3_cd_reddit] "u").2.2 c3_cd_post (by decide)⟩
